import Mathlib

/-!
A verification development for the ARM7TDMI CPU core of the `gba` emulator.
The definitions below are a shallow embedding of `src/cpu/registers.rs`,
`src/cpu/opcodes.rs` and `src/cpu/mod.rs`: 32-bit machine words are `Nat`
reduced modulo `2^32` wherever the Rust code uses wrapping `u32` arithmetic,
the register file mirrors the Rust struct field by field, and the system bus
is a pure read function together with an explicit transaction log.
-/

set_option maxRecDepth 10000

/-- `2^32`, the modulus of all wrapping `u32` arithmetic in the core. -/
def MOD32 : Nat := 4294967296

/-- Wrapping 32-bit addition (`u32::wrapping_add`). -/
def wadd (a b : Nat) : Nat := (a + b) % MOD32

/-- Wrapping 32-bit subtraction (`u32::wrapping_sub`). -/
def wsub (a b : Nat) : Nat := (a + (MOD32 - b % MOD32)) % MOD32

/-- Wrapping 32-bit multiplication (`u32::wrapping_mul`). -/
def wmul (a b : Nat) : Nat := (a * b) % MOD32

/-- Bitwise complement within 32 bits (Rust `!x` on `u32`). -/
def not32 (x : Nat) : Nat := 4294967295 ^^^ x

/-- Reinterpret a `u32` value as a signed `i32` (two's complement). -/
def toI32 (v : Nat) : Int := if v < 2147483648 then (v : Int) else (v : Int) - 4294967296

/-- Reinterpret a signed integer as a `u32` (two's complement, truncating). -/
def ofI32 (z : Int) : Nat := (z % 4294967296).toNat

/-- Modelled from the spec: the access-kind constants `ACCESS_SEQ`,
`ACCESS_NONSEQ` and `ACCESS_CODE` are referenced by `src/cpu/mod.rs` and
`src/cpu/opcodes.rs` but their defining module (the `SystemBus` trait version
of `src/system_bus.rs`) is not present under `src/`.  Per the spec, §6, the
access kind is "a small bitset: Code vs Data, Sequential vs Non-sequential",
so we model it as a two-bit bitset: bit 0 set means sequential (clear means
non-sequential), bit 1 set means code fetch (clear means data). -/
def ACCESS_SEQ : Nat := 1

/-- Modelled from the spec: non-sequential is the absence of the
sequential bit of the access bitset (see `ACCESS_SEQ`). -/
def ACCESS_NONSEQ : Nat := 0

/-- Modelled from the spec: the code-fetch bit of the access bitset
(see `ACCESS_SEQ`). -/
def ACCESS_CODE : Nat := 2

/-- An access kind is tagged sequential iff its sequential bit is set. -/
def isSeqAccess (a : Nat) : Bool := a.testBit 0

/-- An access kind is tagged as a code fetch iff its code bit is set. -/
def isCodeAccess (a : Nat) : Bool := a.testBit 1

/-- `CpuState` from `src/cpu/registers.rs`. -/
inductive CpuState where
  | Arm
  | Thumb
deriving Repr, DecidableEq, Fintype

/-- The discriminant values of `CpuState` (`Arm = 0`, `Thumb = 1 << 5`). -/
def cpuStateBits : CpuState → Nat
  | .Arm => 0
  | .Thumb => 32

/-- `impl TryFrom<u32> for CpuState` from `src/cpu/registers.rs`. -/
def cpuStateTryFrom (value : Nat) : Option CpuState :=
  if value = 0 then some .Arm
  else if value = 32 then some .Thumb
  else none

/-- `CpuMode` from `src/cpu/registers.rs`. -/
inductive CpuMode where
  | User
  | Fiq
  | Irq
  | Supervisor
  | Abort
  | Undefined
  | System
deriving Repr, DecidableEq, Fintype

/-- The discriminant values of `CpuMode`. -/
def cpuModeBits : CpuMode → Nat
  | .User => 16
  | .Fiq => 17
  | .Irq => 18
  | .Supervisor => 19
  | .Abort => 23
  | .Undefined => 27
  | .System => 31

/-- `impl TryFrom<u32> for CpuMode` from `src/cpu/registers.rs`: the value is
masked with `0x1F` and matched against the enumerated encodings; anything
else is a decode error (`Err(())`), never a silent default. -/
def cpuModeTryFrom (value : Nat) : Option CpuMode :=
  if value &&& 31 = 16 then some .User
  else if value &&& 31 = 17 then some .Fiq
  else if value &&& 31 = 18 then some .Irq
  else if value &&& 31 = 19 then some .Supervisor
  else if value &&& 31 = 23 then some .Abort
  else if value &&& 31 = 27 then some .Undefined
  else if value &&& 31 = 31 then some .System
  else none

/-- The `CondFlag` discriminants from `src/cpu/registers.rs`. -/
def FLAG_SIGN : Nat := 1 <<< 31

/-- `CondFlag::Zero`. -/
def FLAG_ZERO : Nat := 1 <<< 30

/-- `CondFlag::Carry`. -/
def FLAG_CARRY : Nat := 1 <<< 29

/-- `CondFlag::Overflow`. -/
def FLAG_OVERFLOW : Nat := 1 <<< 28

/-- `CondFlag::State`. -/
def FLAG_STATE : Nat := 1 <<< 5

/-- `CondFlag::ModeMask`. -/
def FLAG_MODE_MASK : Nat := 31

/-- `RegisterFile` from `src/cpu/registers.rs`, field by field.  Registers
hold `u32` values; the banked shadow registers for each privileged mode are
separate fields exactly as in the source. -/
structure RegisterFile where
  user_bank : Fin 16 → Nat
  fiq_registers : Fin 7 → Nat
  spsr_fiq : Nat
  r13_svc : Nat
  r14_svc : Nat
  spsr_svc : Nat
  r13_abt : Nat
  r14_abt : Nat
  spsr_abt : Nat
  r13_irq : Nat
  r14_irq : Nat
  spsr_irq : Nat
  r13_und : Nat
  r14_und : Nat
  spsr_und : Nat
  cpsr : Nat

/-- `PC_IDX` from `src/cpu/registers.rs`. -/
def PC_IDX : Nat := 15

/-- `RegisterFile::state`: the state bitfield of the status word always
decodes (it is a single bit), so the source's `unwrap` cannot fail. -/
def RegisterFile.state (rf : RegisterFile) : CpuState :=
  match cpuStateTryFrom (rf.cpsr &&& FLAG_STATE) with
  | some s => s
  | none => .Arm

/-- `RegisterFile::mode` without the panicking `unwrap`: `none` is the case
in which the Rust source aborts (`try_from(...).unwrap()` on an out-of-range
mode bitfield). -/
def RegisterFile.mode? (rf : RegisterFile) : Option CpuMode :=
  cpuModeTryFrom (rf.cpsr &&& FLAG_MODE_MASK)

/-- `impl Index<usize> for RegisterFile`: indexed register read resolved
through the current mode.  The `none` mode branch and out-of-range indices
are panics in the source; they return 0 here and are unreachable in every
theorem below. -/
def RegisterFile.read (rf : RegisterFile) (i : Nat) : Nat :=
  if h : i < 16 then
    match rf.mode? with
    | some .User => rf.user_bank ⟨i, h⟩
    | some .Fiq =>
        if h8 : 8 ≤ i ∧ i ≤ 14 then rf.fiq_registers ⟨i - 8, by omega⟩
        else rf.user_bank ⟨i, h⟩
    | some .Irq =>
        if i = 13 then rf.r13_irq else if i = 14 then rf.r14_irq
        else rf.user_bank ⟨i, h⟩
    | some .Supervisor =>
        if i = 13 then rf.r13_svc else if i = 14 then rf.r14_svc
        else rf.user_bank ⟨i, h⟩
    | some .Abort =>
        if i = 13 then rf.r13_abt else if i = 14 then rf.r14_abt
        else rf.user_bank ⟨i, h⟩
    | some .Undefined =>
        if i = 13 then rf.r13_und else if i = 14 then rf.r14_und
        else rf.user_bank ⟨i, h⟩
    | some .System => rf.user_bank ⟨i, h⟩
    | none => 0
  else 0

/-- `impl IndexMut<usize> for RegisterFile`: indexed register write resolved
through the current mode (same bank selection as `RegisterFile.read`). -/
def RegisterFile.write (rf : RegisterFile) (i : Nat) (v : Nat) : RegisterFile :=
  if h : i < 16 then
    match rf.mode? with
    | some .User => { rf with user_bank := Function.update rf.user_bank ⟨i, h⟩ v }
    | some .Fiq =>
        if h8 : 8 ≤ i ∧ i ≤ 14 then
          { rf with fiq_registers := Function.update rf.fiq_registers ⟨i - 8, by omega⟩ v }
        else { rf with user_bank := Function.update rf.user_bank ⟨i, h⟩ v }
    | some .Irq =>
        if i = 13 then { rf with r13_irq := v } else if i = 14 then { rf with r14_irq := v }
        else { rf with user_bank := Function.update rf.user_bank ⟨i, h⟩ v }
    | some .Supervisor =>
        if i = 13 then { rf with r13_svc := v } else if i = 14 then { rf with r14_svc := v }
        else { rf with user_bank := Function.update rf.user_bank ⟨i, h⟩ v }
    | some .Abort =>
        if i = 13 then { rf with r13_abt := v } else if i = 14 then { rf with r14_abt := v }
        else { rf with user_bank := Function.update rf.user_bank ⟨i, h⟩ v }
    | some .Undefined =>
        if i = 13 then { rf with r13_und := v } else if i = 14 then { rf with r14_und := v }
        else { rf with user_bank := Function.update rf.user_bank ⟨i, h⟩ v }
    | some .System => { rf with user_bank := Function.update rf.user_bank ⟨i, h⟩ v }
    | none => rf
  else rf

/-- `RegisterFile::get_and_incr_pc`: returns the program counter and
post-increments it by `amt` with wrapping arithmetic (direct `user_bank`
access in the source, not mode-resolved). -/
def RegisterFile.getAndIncrPc (rf : RegisterFile) (amt : Nat) : Nat × RegisterFile :=
  let pc := rf.user_bank 15
  (pc, { rf with user_bank := Function.update rf.user_bank 15 (wadd pc amt) })

/-- `RegisterFile::sign`. -/
def RegisterFile.sign (rf : RegisterFile) : Bool := rf.cpsr &&& FLAG_SIGN != 0

/-- `RegisterFile::zero`. -/
def RegisterFile.zero (rf : RegisterFile) : Bool := rf.cpsr &&& FLAG_ZERO != 0

/-- `RegisterFile::carry`. -/
def RegisterFile.carry (rf : RegisterFile) : Bool := rf.cpsr &&& FLAG_CARRY != 0

/-- `RegisterFile::overflow`. -/
def RegisterFile.overflow (rf : RegisterFile) : Bool := rf.cpsr &&& FLAG_OVERFLOW != 0

/-- `RegisterFile::update_flag`. -/
def RegisterFile.updateFlag (rf : RegisterFile) (flag : Nat) (value : Bool) : RegisterFile :=
  if value then { rf with cpsr := rf.cpsr ||| flag }
  else { rf with cpsr := rf.cpsr &&& not32 flag }

/-- `RegisterFile::spsr_moded`: the saved status word of the active mode;
User and System fall back to the current status word as in the source. -/
def RegisterFile.spsr_moded (rf : RegisterFile) : Nat :=
  match rf.mode? with
  | some .User => rf.cpsr
  | some .Fiq => rf.spsr_fiq
  | some .Irq => rf.spsr_irq
  | some .Supervisor => rf.spsr_svc
  | some .Abort => rf.spsr_abt
  | some .Undefined => rf.spsr_und
  | some .System => rf.cpsr
  | none => rf.cpsr

/-- A bus transaction as observed by the external memory system: the address
and access kind of every read/write, plus the data of writes.  Mirrors the
`SystemBus` trait surface used by the core (spec §6). -/
inductive BusEvent where
  | readWord (addr access : Nat)
  | readHalf (addr access : Nat)
  | writeWord (addr data access : Nat)
  | writeHalf (addr data access : Nat)
  | idle
deriving Repr, DecidableEq

/-- The pure part of a bus implementation: what data a word / half-word read
returns, as a function of address and access kind. -/
structure BusSpec where
  readW : Nat → Nat → Nat
  readH : Nat → Nat → Nat

/-- `Arm7Cpu` from `src/cpu/mod.rs`: register file, the two-deep pipeline
(`pipeline[0]` = decode slot, `pipeline[1]` = fetch slot) and the
next-access-kind flag. -/
structure Arm7Cpu where
  registers : RegisterFile
  pipeline0 : Nat
  pipeline1 : Nat
  next_access : Nat

/-- An execution state: the CPU together with the log of bus transactions
issued so far. -/
structure Exec where
  cpu : Arm7Cpu
  log : List BusEvent

/-- Replace the register file of an execution state. -/
def Exec.setRegs (s : Exec) (rf : RegisterFile) : Exec :=
  { s with cpu := { s.cpu with registers := rf } }

/-- Set the next-access-kind flag. -/
def Exec.setNextAccess (s : Exec) (a : Nat) : Exec :=
  { s with cpu := { s.cpu with next_access := a } }

/-- `bus.read_word(addr, access)`: returns the bus data (truncated to 32
bits, as the Rust trait returns `u32`) and logs the transaction. -/
def busReadWord (spec : BusSpec) (s : Exec) (addr access : Nat) : Nat × Exec :=
  (spec.readW addr access % MOD32, { s with log := s.log ++ [.readWord addr access] })

/-- `bus.read_half_word(addr, access)`: returns the bus data (truncated to
16 bits, as the Rust trait returns `u16`) and logs the transaction. -/
def busReadHalf (spec : BusSpec) (s : Exec) (addr access : Nat) : Nat × Exec :=
  (spec.readH addr access % 65536, { s with log := s.log ++ [.readHalf addr access] })

/-- `bus.write_word(addr, data, access)`: logs the transaction. -/
def busWriteWord (s : Exec) (addr data access : Nat) : Exec :=
  { s with log := s.log ++ [.writeWord addr data access] }

/-- `bus.idle()`: logs an internal cycle. -/
def busIdle (s : Exec) : Exec :=
  { s with log := s.log ++ [.idle] }

/-- `Arm7Cpu::reload_pipeline32` from `src/cpu/mod.rs`: refill both pipeline
slots with word fetches at PC and PC+4; the first read uses the recorded
`next_access` kind, the second is a sequential code fetch. -/
def reloadPipeline32 (spec : BusSpec) (s : Exec) : Exec :=
  let pr0 := s.cpu.registers.getAndIncrPc 4
  let r0 := busReadWord spec (s.setRegs pr0.2) pr0.1 s.cpu.next_access
  let s := { r0.2 with cpu := { r0.2.cpu with pipeline0 := r0.1 } }
  let pr1 := s.cpu.registers.getAndIncrPc 4
  let r1 := busReadWord spec (s.setRegs pr1.2) pr1.1 (ACCESS_CODE ||| ACCESS_SEQ)
  let s := { r1.2 with cpu := { r1.2.cpu with pipeline1 := r1.1 } }
  s.setNextAccess (ACCESS_CODE ||| ACCESS_SEQ)

/-- `Arm7Cpu::reload_pipeline16` from `src/cpu/mod.rs`: the Thumb variant
with half-word fetches at PC and PC+2. -/
def reloadPipeline16 (spec : BusSpec) (s : Exec) : Exec :=
  let pr0 := s.cpu.registers.getAndIncrPc 2
  let r0 := busReadHalf spec (s.setRegs pr0.2) pr0.1 s.cpu.next_access
  let s := { r0.2 with cpu := { r0.2.cpu with pipeline0 := r0.1 } }
  let pr1 := s.cpu.registers.getAndIncrPc 2
  let r1 := busReadHalf spec (s.setRegs pr1.2) pr1.1 (ACCESS_CODE ||| ACCESS_SEQ)
  let s := { r1.2 with cpu := { r1.2.cpu with pipeline1 := r1.1 } }
  s.setNextAccess (ACCESS_CODE ||| ACCESS_SEQ)

/-- `Arm7Cpu::reload_pipeline`: dispatch on the execution state. -/
def reloadPipeline (spec : BusSpec) (s : Exec) : Exec :=
  match s.cpu.registers.state with
  | .Arm => reloadPipeline32 spec s
  | .Thumb => reloadPipeline16 spec s

/-- `Condition` from `src/cpu/opcodes.rs`. -/
inductive Condition where
  | Equal
  | NotEqual
  | CarrySet
  | CarryCleared
  | Minus
  | Positive
  | Overflow
  | NoOverflow
  | UnsignedHigher
  | UnsignedLowerOrSame
  | GreaterOrEqual
  | LessThan
  | GreaterThan
  | LessOrEqual
  | Always
  | Never
deriving Repr, DecidableEq

/-- `condition_from_opcode`: the top four bits of the instruction word select
the condition.  The source transmutes `(opcode >> 28) as u8`, which for a
`u32` operand is always in `0..=15`; the mask makes that explicit here. -/
def conditionFromOpcode (opcode : Nat) : Condition :=
  match (opcode >>> 28) &&& 15 with
  | 0 => .Equal
  | 1 => .NotEqual
  | 2 => .CarrySet
  | 3 => .CarryCleared
  | 4 => .Minus
  | 5 => .Positive
  | 6 => .Overflow
  | 7 => .NoOverflow
  | 8 => .UnsignedHigher
  | 9 => .UnsignedLowerOrSame
  | 10 => .GreaterOrEqual
  | 11 => .LessThan
  | 12 => .GreaterThan
  | 13 => .LessOrEqual
  | 14 => .Always
  | _ => .Never

/-- `check_condition` from `src/cpu/opcodes.rs`. -/
def checkCondition (registers : RegisterFile) (opcode : Nat) : Bool :=
  let zero := registers.zero
  let carry := registers.carry
  let overflow := registers.overflow
  let sign := registers.sign
  match conditionFromOpcode opcode with
  | .Equal => zero
  | .NotEqual => !zero
  | .CarrySet => carry
  | .CarryCleared => !carry
  | .Minus => sign
  | .Positive => !sign
  | .Overflow => overflow
  | .NoOverflow => !overflow
  | .UnsignedHigher => carry && !zero
  | .UnsignedLowerOrSame => !carry || zero
  | .GreaterOrEqual => sign == overflow
  | .LessThan => sign != overflow
  | .GreaterThan => !zero && (sign == overflow)
  | .LessOrEqual => zero || (sign != overflow)
  | .Always => true
  | .Never => false

/-- `DataProcessingOpcode` from `src/cpu/opcodes.rs`. -/
inductive DataProcessingOpcode where
  | AND
  | EOR
  | SUB
  | RSB
  | ADD
  | ADC
  | SBC
  | RSC
  | TST
  | TEQ
  | CMP
  | CMN
  | ORR
  | MOV
  | BIC
  | MVN
deriving Repr, DecidableEq

/-- The transmute `u8 -> DataProcessingOpcode` used by the decoder; the
argument is the 4-bit sub-opcode field, so the catch-all arm is `MVN`. -/
def dpOpcodeOfNat (n : Nat) : DataProcessingOpcode :=
  match n with
  | 0 => .AND
  | 1 => .EOR
  | 2 => .SUB
  | 3 => .RSB
  | 4 => .ADD
  | 5 => .ADC
  | 6 => .SBC
  | 7 => .RSC
  | 8 => .TST
  | 9 => .TEQ
  | 10 => .CMP
  | 11 => .CMN
  | 12 => .ORR
  | 13 => .MOV
  | 14 => .BIC
  | _ => .MVN

/-- `ShiftType` from `src/cpu/opcodes.rs`. -/
inductive ShiftType where
  | Lsl
  | Lsr
  | Asr
  | Ror
deriving Repr, DecidableEq

/-- The transmute `u8 -> ShiftType` used by the decoder (2-bit field). -/
def shiftTypeOfNat (n : Nat) : ShiftType :=
  match n with
  | 0 => .Lsl
  | 1 => .Lsr
  | 2 => .Asr
  | _ => .Ror

/-- `DataProcessingOperand` from `src/cpu/opcodes.rs`. -/
inductive DataProcessingOperand where
  | Immediate (value : Nat)
  | ShiftedImmediate (operand shift : Nat)
  | RegisterShiftedRegister (operand_register shift_register : Nat) (shift_type : ShiftType)
  | ImmediateShiftedRegister (operand_register shift : Nat) (shift_type : ShiftType)
deriving Repr, DecidableEq

/-- `BlockTransferType` from `src/cpu/opcodes.rs`. -/
inductive BlockTransferType where
  | STM
  | LDM
deriving Repr, DecidableEq

/-- `DecodedArmOpcode` from `src/cpu/opcodes.rs`. -/
inductive DecodedArmOpcode where
  | B (offset : Nat)
  | BL (offset : Nat)
  | BX (register_idx : Nat)
  | DataProcessing (operand : DataProcessingOperand) (rd rn : Nat)
      (sub_opcode : DataProcessingOpcode) (set_flags : Bool)
  | BlockDataTransfer (base_register : Nat) (transfer_type : BlockTransferType)
      (pre_increment increment psr_n_force_user write_address_into_base : Bool)
      (rlist : Nat)
deriving Repr, DecidableEq

/-- `Opcode` from `src/cpu/opcodes.rs`. -/
inductive Opcode where
  | Arm (op : DecodedArmOpcode)
  | Thumb
deriving Repr, DecidableEq

/-- `try_decode_b_bl` from `src/cpu/opcodes.rs`.  Note that in the source
the second match arm binds (`mask => ...`), so every value with bit 24 set
decodes to `BL`. -/
def tryDecodeBBl (opcode : Nat) : Option DecodedArmOpcode :=
  if opcode &&& 0xE000000 ≠ 0xA000000 then none
  else if opcode &&& (1 <<< 24) = 0 then some (.B (opcode &&& 0xFFFFFF))
  else some (.BL (opcode &&& 0xFFFFFF))

/-- `try_decode_bx` from `src/cpu/opcodes.rs`. -/
def tryDecodeBx (opcode : Nat) : Option DecodedArmOpcode :=
  if opcode &&& 0x0FFFFF10 ≠ 0x012FFF10 then none
  else some (.BX (opcode &&& 0xF))

/-- `try_decode_data_processing` from `src/cpu/opcodes.rs`. -/
def tryDecodeDataProcessing (opcode : Nat) : Option DecodedArmOpcode :=
  if opcode &&& 0x0C000000 ≠ 0 then none
  else
    let sub_opcode := (opcode &&& 0x1E00000) >>> 21
    if 8 ≤ sub_opcode ∧ sub_opcode ≤ 11 ∧ opcode &&& (1 <<< 20) ≠ (1 <<< 20) then none
    else
      let set_flags := opcode &&& (1 <<< 20) == (1 <<< 20)
      if (sub_opcode = 13 ∨ sub_opcode = 15) ∧ opcode &&& (15 <<< 16) ≠ 0 then none
      else
        let rn := (opcode &&& (15 <<< 16)) >>> 16
        let rd := (opcode &&& (15 <<< 12)) >>> 12
        if (8 ≤ sub_opcode ∧ sub_opcode ≤ 11) ∧ (rd ≠ 0 ∧ rd ≠ 15) then none
        else
          let sub := dpOpcodeOfNat sub_opcode
          let is_immediate := opcode &&& (1 <<< 25) ≠ 0
          if is_immediate then
            let nn := opcode &&& 0xFF
            let shift := (opcode &&& 0xF00) >>> 7
            if shift ≠ 0 then
              some (.DataProcessing (.ShiftedImmediate nn shift) rd rn sub set_flags)
            else some (.DataProcessing (.Immediate nn) rd rn sub set_flags)
          else
            let shift_by_register := opcode &&& 0x10 ≠ 0
            if shift_by_register ∧ opcode &&& 0x80 ≠ 0 then none
            else
              let operand_register := opcode &&& 0xF
              let shift_type := shiftTypeOfNat ((opcode &&& 0x60) >>> 5)
              if shift_by_register then
                some (.DataProcessing
                  (.RegisterShiftedRegister operand_register ((opcode &&& 0xF00) >>> 8) shift_type)
                  rd rn sub set_flags)
              else
                some (.DataProcessing
                  (.ImmediateShiftedRegister operand_register ((opcode &&& 0xF80) >>> 7) shift_type)
                  rd rn sub set_flags)

/-- `try_decode_ldm_stm` from `src/cpu/opcodes.rs`. -/
def tryDecodeLdmStm (opcode : Nat) : Option DecodedArmOpcode :=
  if opcode &&& 0x0E000000 ≠ 0x08000000 then none
  else
    let pre_increment := opcode &&& 0x1000000 == 0x1000000
    let increment := opcode &&& 0x800000 == 0x800000
    let psr_n_force_user := opcode &&& 0x400000 == 0x400000
    let write_address_into_base := opcode &&& 0x200000 == 0x200000
    let transfer_type := if opcode &&& 0x100000 == 0x100000 then BlockTransferType.LDM
      else BlockTransferType.STM
    let base_register := (opcode &&& 0xF0000) >>> 16
    let rlist := opcode &&& 0xFFFF
    some (.BlockDataTransfer base_register transfer_type pre_increment increment
      psr_n_force_user write_address_into_base rlist)

/-- `decode_arm_opcode` from `src/cpu/opcodes.rs`: the four pattern matchers
are tried in their source order; the first that matches wins. -/
def decodeArmOpcode (opcode : Nat) : Option Opcode :=
  match tryDecodeBBl opcode with
  | some d => some (.Arm d)
  | none =>
    match tryDecodeBx opcode with
    | some d => some (.Arm d)
    | none =>
      match tryDecodeDataProcessing opcode with
      | some d => some (.Arm d)
      | none =>
        match tryDecodeLdmStm opcode with
        | some d => some (.Arm d)
        | none => none

/-- The 24-bit sign extension performed at the start of `execute_b`. -/
def sext24 (offset : Nat) : Nat :=
  if offset &&& 0x800000 ≠ 0 then offset ||| 0xFF000000 else offset

/-- `execute_b` from `src/cpu/opcodes.rs`: sign-extend the 24-bit offset,
add the offset times 4 to PC with wrapping arithmetic, mark the next access
as a sequential code fetch, and reload the pipeline. -/
def executeB (spec : BusSpec) (s : Exec) (offset : Nat) : Exec :=
  let offset := sext24 offset
  let destination := wadd (s.cpu.registers.read PC_IDX) (wmul offset 4)
  let s := s.setRegs (s.cpu.registers.write PC_IDX destination)
  let s := s.setNextAccess (ACCESS_CODE ||| ACCESS_SEQ)
  reloadPipeline spec s

/-- `execute_bl` from `src/cpu/opcodes.rs`: capture PC minus 4 before
executing the branch, then store it into register 14. -/
def executeBL (spec : BusSpec) (s : Exec) (offset : Nat) : Exec :=
  let link := wsub (s.cpu.registers.read PC_IDX) 4
  let s := executeB spec s offset
  s.setRegs (s.cpu.registers.write 14 link)

/-- `execute_arm_to_thumb_bx` from `src/cpu/opcodes.rs`.  The source first
asserts the CPU is in ARM state; the assertion is not modelled (a panic). -/
def executeArmToThumbBx (spec : BusSpec) (s : Exec) (register_idx : Nat) : Exec :=
  let destination := s.cpu.registers.read register_idx
  let s :=
    if destination &&& 1 = 1 then
      s.setRegs { s.cpu.registers with cpsr := s.cpu.registers.cpsr ^^^ FLAG_STATE }
    else s
  let destination := if destination &&& 1 = 1 then destination &&& 4294967294 else destination
  let s := s.setRegs (s.cpu.registers.write PC_IDX destination)
  let s := s.setNextAccess (ACCESS_CODE ||| ACCESS_NONSEQ)
  reloadPipeline spec s

/-- `lsl` from `src/cpu/opcodes.rs` (`u32::unbounded_shl`). -/
def lsl32 (value amount : Nat) : Nat := (value <<< amount) % MOD32

/-- `lsr` from `src/cpu/opcodes.rs` (`u32::unbounded_shr`). -/
def lsr32 (value amount : Nat) : Nat := value >>> amount

/-- `asr` from `src/cpu/opcodes.rs`: arithmetic shift right of the value
reinterpreted as `i32` (`i32::unbounded_shr` is a floor division by the
power of two, shifting in copies of the sign bit). -/
def asr32 (value amount : Nat) : Nat := ofI32 (Int.fdiv (toI32 value) (2 ^ amount))

/-- `ror` from `src/cpu/opcodes.rs` (`u32::rotate_right`). -/
def ror32 (value amount : Nat) : Nat :=
  let k := amount % 32
  (((value % MOD32) >>> k) ||| ((value % MOD32) <<< (32 - k))) % MOD32

/-- `shift` from `src/cpu/opcodes.rs`: the shifted value and the
shifted-out carry, computed over the 64-bit expansion as in the source. -/
def shiftOp (shift_type : ShiftType) (value amount : Nat) : Nat × Bool :=
  if amount = 0 then (value, false)
  else
    let expanded_value := value
    let expanded_amount := min 33 amount
    match shift_type with
    | .Lsl =>
        (lsl32 value amount,
          ((((expanded_value <<< (expanded_amount - 1)) % 18446744073709551616) >>> 31) &&& 1) != 0)
    | .Lsr =>
        (lsr32 value amount, ((expanded_value >>> (expanded_amount - 1)) &&& 1) != 0)
    | .Asr =>
        (asr32 value amount,
          decide ((Int.fdiv (toI32 value) (2 ^ (expanded_amount - 1))) % 2 = 1))
    | .Ror =>
        let res := ror32 value amount
        (res, res.testBit 31)

/-- The operand-resolution block of `execute_data_processing`
(`src/cpu/opcodes.rs`): resolves the second operand to a value together
with the shifter's optional carry-out (`None` = carry flag unaffected).
The register-shifted-by-register form issues an idle bus cycle, advances PC
by one word before reading the operand, and marks the next access as a
non-sequential code fetch, exactly as in the source. -/
def resolveOperand (s : Exec) (operand : DataProcessingOperand) :
    (Nat × Option Bool) × Exec :=
  match operand with
  | .Immediate value => ((value, none), s)
  | .ShiftedImmediate operand shift =>
      ((ror32 operand shift, some ((operand >>> (shift - 1)) &&& 1 != 0)), s)
  | .RegisterShiftedRegister operand_register shift_register shift_type =>
      let shift_amount := s.cpu.registers.read shift_register &&& 0xFF
      let s := busIdle s
      let s := s.setRegs (s.cpu.registers.write PC_IDX
        (wadd (s.cpu.registers.read PC_IDX) 4))
      let s := s.setNextAccess (ACCESS_CODE ||| ACCESS_NONSEQ)
      let value := s.cpu.registers.read operand_register
      let vc := shiftOp shift_type value shift_amount
      ((vc.1, if shift_amount != 0 then some vc.2 else none), s)
  | .ImmediateShiftedRegister operand_register shift_amount shift_type =>
      if shift_amount = 0 then
        let value := s.cpu.registers.read operand_register
        match shift_type with
        | .Lsl => ((value, none), s)
        | .Lsr => ((0, some (value &&& (1 <<< 31) != 0)), s)
        | .Asr => ((ofI32 (Int.fdiv (toI32 value) (2 ^ 31)), some (value &&& (1 <<< 31) != 0)), s)
        | .Ror =>
            let carry := s.cpu.registers.carry
            let result := ror32 value 1
            let mask := 1 <<< 31
            let result := if carry then result ||| mask else result &&& not32 mask
            ((result, some (value &&& 1 != 0)), s)
      else
        let value := s.cpu.registers.read operand_register
        let vc := shiftOp shift_type value
          (if shift_type = .Asr ∧ shift_amount = 0 then 32 else shift_amount)
        ((vc.1, some vc.2), s)

/-- `do_sub` from `src/cpu/opcodes.rs`. -/
def doSub (operand_a operand_b : Nat) : Nat × Bool × Bool :=
  let result := wsub operand_a operand_b
  let overflow := (((operand_a ^^^ operand_b) &&& (operand_a ^^^ result)) >>> 31) != 0
  (result, decide (operand_a ≥ operand_b), overflow)

/-- `do_add` from `src/cpu/opcodes.rs` (`u32::overflowing_add`). -/
def doAdd (operand_a operand_b : Nat) : Nat × Bool × Bool :=
  let result := wadd operand_a operand_b
  let carry := decide (operand_a + operand_b ≥ MOD32)
  let overflow := ((not32 (operand_a ^^^ operand_b) &&& (operand_a ^^^ result)) >>> 31) != 0
  (result, carry, overflow)

/-- `do_sbc` from `src/cpu/opcodes.rs`. -/
def doSbc (operand_a operand_b : Nat) (carry : Bool) : Nat × Bool × Bool :=
  let operand_c := (if carry then 1 else 0) ^^^ 1
  let result := wsub (wsub operand_a operand_b) operand_c
  let carry := decide (operand_a ≥ operand_b + operand_c)
  let overflow := (((operand_a ^^^ operand_b) &&& (operand_a ^^^ result)) >>> 31) != 0
  (result, carry, overflow)

/-- `execute_and` from `src/cpu/opcodes.rs`. -/
def executeAnd (s : Exec) (rd rn : Nat) (operand : Nat) : (Nat × Bool × Bool) × Exec :=
  let rf := s.cpu.registers.write rd (s.cpu.registers.read rn &&& operand)
  ((rf.read rd, false, false), s.setRegs rf)

/-- `execute_eor` from `src/cpu/opcodes.rs`. -/
def executeEor (s : Exec) (rd rn : Nat) (operand : Nat) : (Nat × Bool × Bool) × Exec :=
  let rf := s.cpu.registers.write rd (s.cpu.registers.read rn ^^^ operand)
  ((rf.read rd, false, false), s.setRegs rf)

/-- `execute_sub` from `src/cpu/opcodes.rs`. -/
def executeSub (s : Exec) (rd rn : Nat) (operand : Nat) : (Nat × Bool × Bool) × Exec :=
  let result := doSub (s.cpu.registers.read rn) operand
  ((result.1, result.2), s.setRegs (s.cpu.registers.write rd result.1))

/-- `execute_rsb` from `src/cpu/opcodes.rs`. -/
def executeRsb (s : Exec) (rd rn : Nat) (operand : Nat) : (Nat × Bool × Bool) × Exec :=
  let result := doSub operand (s.cpu.registers.read rn)
  ((result.1, result.2), s.setRegs (s.cpu.registers.write rd result.1))

/-- `execute_add` from `src/cpu/opcodes.rs`. -/
def executeAdd (s : Exec) (rd rn : Nat) (operand : Nat) : (Nat × Bool × Bool) × Exec :=
  let result := doAdd (s.cpu.registers.read rn) operand
  ((result.1, result.2), s.setRegs (s.cpu.registers.write rd result.1))

/-- `execute_adc` from `src/cpu/opcodes.rs`: 64-bit sum of the operands and
the incoming carry; the carry out is bit 32 of the sum and the overflow is
computed from the pre-write value of `rn`. -/
def executeAdc (s : Exec) (rd rn : Nat) (operand : Nat) : (Nat × Bool × Bool) × Exec :=
  let operand_a := s.cpu.registers.read rn
  let carryIn : Nat := if s.cpu.registers.carry then 1 else 0
  let result64 := operand_a + operand + carryIn
  let carry := result64 &&& (1 <<< 32) != 0
  let overflow :=
    ((not32 (operand_a ^^^ operand) &&& (operand_a ^^^ (result64 % MOD32))) >>> 31) != 0
  let rf := s.cpu.registers.write rd (result64 % MOD32)
  ((rf.read rd, carry, overflow), s.setRegs rf)

/-- `execute_sbc` from `src/cpu/opcodes.rs`. -/
def executeSbc (s : Exec) (rd rn : Nat) (operand : Nat) : (Nat × Bool × Bool) × Exec :=
  let result := doSbc (s.cpu.registers.read rn) operand s.cpu.registers.carry
  ((result.1, result.2), s.setRegs (s.cpu.registers.write rd result.1))

/-- `execute_rsc` from `src/cpu/opcodes.rs`. -/
def executeRsc (s : Exec) (rd rn : Nat) (operand : Nat) : (Nat × Bool × Bool) × Exec :=
  let result := doSbc operand (s.cpu.registers.read rn) s.cpu.registers.carry
  ((result.1, result.2), s.setRegs (s.cpu.registers.write rd result.1))

/-- `execute_tst` from `src/cpu/opcodes.rs` (no register write). -/
def executeTst (s : Exec) (rd rn : Nat) (operand : Nat) : (Nat × Bool × Bool) × Exec :=
  ((s.cpu.registers.read rn &&& operand, false, false), s)

/-- `execute_teq` from `src/cpu/opcodes.rs` (no register write). -/
def executeTeq (s : Exec) (rd rn : Nat) (operand : Nat) : (Nat × Bool × Bool) × Exec :=
  ((s.cpu.registers.read rn ^^^ operand, false, false), s)

/-- `execute_cmp` from `src/cpu/opcodes.rs` (no register write). -/
def executeCmp (s : Exec) (rd rn : Nat) (operand : Nat) : (Nat × Bool × Bool) × Exec :=
  (doSub (s.cpu.registers.read rn) operand, s)

/-- `execute_cmn` from `src/cpu/opcodes.rs` (no register write). -/
def executeCmn (s : Exec) (rd rn : Nat) (operand : Nat) : (Nat × Bool × Bool) × Exec :=
  (doAdd (s.cpu.registers.read rn) operand, s)

/-- `execute_orr` from `src/cpu/opcodes.rs`. -/
def executeOrr (s : Exec) (rd rn : Nat) (operand : Nat) : (Nat × Bool × Bool) × Exec :=
  let rf := s.cpu.registers.write rd (s.cpu.registers.read rn ||| operand)
  ((rf.read rd, false, false), s.setRegs rf)

/-- `execute_mov` from `src/cpu/opcodes.rs`. -/
def executeMov (s : Exec) (rd rn : Nat) (operand : Nat) : (Nat × Bool × Bool) × Exec :=
  let rf := s.cpu.registers.write rd operand
  ((rf.read rd, false, false), s.setRegs rf)

/-- `execute_bic` from `src/cpu/opcodes.rs`. -/
def executeBic (s : Exec) (rd rn : Nat) (operand : Nat) : (Nat × Bool × Bool) × Exec :=
  let rf := s.cpu.registers.write rd (s.cpu.registers.read rn &&& not32 operand)
  ((rf.read rd, false, false), s.setRegs rf)

/-- `execute_mvn` from `src/cpu/opcodes.rs`. -/
def executeMvn (s : Exec) (rd rn : Nat) (operand : Nat) : (Nat × Bool × Bool) × Exec :=
  let rf := s.cpu.registers.write rd (not32 operand)
  ((rf.read rd, false, false), s.setRegs rf)

/-- The sub-opcode dispatch of `execute_data_processing`: runs the matching
ALU routine and returns `(result, carry, overflow)` plus the updated
state. -/
def aluDispatch (sub : DataProcessingOpcode) (s : Exec) (rd rn : Nat) (operand : Nat) :
    (Nat × Bool × Bool) × Exec :=
  match sub with
  | .AND => executeAnd s rd rn operand
  | .EOR => executeEor s rd rn operand
  | .SUB => executeSub s rd rn operand
  | .RSB => executeRsb s rd rn operand
  | .ADD => executeAdd s rd rn operand
  | .ADC => executeAdc s rd rn operand
  | .SBC => executeSbc s rd rn operand
  | .RSC => executeRsc s rd rn operand
  | .TST => executeTst s rd rn operand
  | .TEQ => executeTeq s rd rn operand
  | .CMP => executeCmp s rd rn operand
  | .CMN => executeCmn s rd rn operand
  | .ORR => executeOrr s rd rn operand
  | .MOV => executeMov s rd rn operand
  | .BIC => executeBic s rd rn operand
  | .MVN => executeMvn s rd rn operand

/-- The logical sub-opcodes, i.e. the first arm of the flag-update `match`
in `execute_data_processing` (AND, EOR, TST, TEQ, ORR, MOV, BIC, MVN);
every other sub-opcode falls into the arithmetic arm. -/
def isLogicalOp (sub : DataProcessingOpcode) : Bool :=
  match sub with
  | .AND | .EOR | .TST | .TEQ | .ORR | .MOV | .BIC | .MVN => true
  | _ => false

/-- The comparison-only sub-opcodes tested by the `rd == PC_IDX` branch of
`execute_data_processing` (TST, TEQ, CMP, CMN). -/
def isTestOp (sub : DataProcessingOpcode) : Bool :=
  match sub with
  | .TST | .TEQ | .CMP | .CMN => true
  | _ => false

/-- Whether the operand is the register-shifted-by-register form (the
`matches!` checks at the end of `execute_data_processing`). -/
def isRegisterShifted (operand : DataProcessingOperand) : Bool :=
  match operand with
  | .RegisterShiftedRegister _ _ _ => true
  | _ => false

/-- The flag-update block of `execute_data_processing` (the `if set_flags`
body): Zero and Sign always follow the result; logical sub-opcodes take
Carry from the shifter carry-out when one exists and never touch Overflow;
arithmetic sub-opcodes take Carry and Overflow from the ALU. -/
def applyDpFlags (sub : DataProcessingOpcode) (shifted_carry : Option Bool)
    (result : Nat) (carry overflow : Bool) (rf : RegisterFile) : RegisterFile :=
  let rf := rf.updateFlag FLAG_ZERO (result == 0)
  let rf := rf.updateFlag FLAG_SIGN (decide (toI32 result < 0))
  if isLogicalOp sub then
    match shifted_carry with
    | some c => rf.updateFlag FLAG_CARRY c
    | none => rf
  else
    (rf.updateFlag FLAG_CARRY carry).updateFlag FLAG_OVERFLOW overflow

/-- `execute_data_processing` from `src/cpu/opcodes.rs`. -/
def executeDataProcessing (spec : BusSpec) (s : Exec) (sub : DataProcessingOpcode)
    (rd rn : Nat) (operand : DataProcessingOperand) (set_flags : Bool) : Exec :=
  let s := s.setNextAccess (ACCESS_CODE ||| ACCESS_SEQ)
  let res := resolveOperand s operand
  let operand_b := res.1.1
  let shifted_carry := res.1.2
  let s := res.2
  let alu := aluDispatch sub s rd rn operand_b
  let result := alu.1.1
  let carry := alu.1.2.1
  let overflow := alu.1.2.2
  let s := alu.2
  let s := if set_flags then
      s.setRegs (applyDpFlags sub shifted_carry result carry overflow s.cpu.registers)
    else s
  if rd = PC_IDX then
    let s := if set_flags then
        s.setRegs { s.cpu.registers with cpsr := s.cpu.registers.spsr_moded }
      else s
    if ¬ isTestOp sub then reloadPipeline spec s
    else if ¬ isRegisterShifted operand then
      s.setRegs (s.cpu.registers.getAndIncrPc 4).2
    else s
  else if ¬ isRegisterShifted operand then
    s.setRegs (s.cpu.registers.getAndIncrPc 4).2
  else s

/-- Population count of the 16-bit register list (`u16::count_ones`). -/
def popCount16 (n : Nat) : Nat :=
  ((List.range 16).filter (fun i => n.testBit i)).length

/-- Trailing-zero count of the 16-bit register list (`u16::trailing_zeros`):
the index of the lowest set bit, or 16 when the list is empty. -/
def trailingZeros16 (n : Nat) : Nat :=
  (((List.range 16).filter (fun i => n.testBit i)).head?).getD 16

/-- One iteration of the transfer loop of `execute_block_data_transfer`:
skip clear bits; store (respecting the base-aliasing rule) or load one word
at the running address, advance the address by 4, mark later accesses
sequential, and reload the pipeline after a load into PC. -/
def blockTransferStep (spec : BusSpec) (transfer_type : BlockTransferType)
    (base_register : Nat) (rb_first_in_rlist : Bool) (words_to_transfer : Nat)
    (rlist : Nat) (acc : Nat × Exec) (i : Nat) : Nat × Exec :=
  if rlist &&& (1 <<< i) = 0 then acc
  else
    let base_address := acc.1
    let s := acc.2
    let s :=
      match transfer_type with
      | .STM =>
          let data := if i = base_register ∧ ¬ rb_first_in_rlist then
              wadd (s.cpu.registers.read i) (words_to_transfer * 4)
            else s.cpu.registers.read i
          busWriteWord s base_address data s.cpu.next_access
      | .LDM =>
          let r := busReadWord spec s base_address s.cpu.next_access
          r.2.setRegs (r.2.cpu.registers.write i r.1)
    let base_address := wadd base_address 4
    let s := s.setNextAccess ACCESS_SEQ
    let s := if i = PC_IDX ∧ transfer_type = .LDM then reloadPipeline spec s else s
    (base_address, s)

/-- `execute_block_data_transfer` from `src/cpu/opcodes.rs`. -/
def executeBlockDataTransfer (spec : BusSpec) (s : Exec) (base_register : Nat)
    (transfer_type : BlockTransferType) (pre_increment increment psr_n_force_user
    write_address_into_base : Bool) (rlist : Nat) : Exec :=
  let s := s.setRegs (s.cpu.registers.getAndIncrPc 4).2
  let words_to_transfer := popCount16 rlist
  let rw := if words_to_transfer = 0 then ((1 <<< 15 : Nat), 1) else (rlist, words_to_transfer)
  let rlist := rw.1
  let words_to_transfer := rw.2
  let rb_in_rlist := rlist &&& (1 <<< base_register) != 0
  let rb_first_in_rlist := if rb_in_rlist then
      (trailingZeros16 rlist + 1) == base_register
    else false
  let base_address := if increment then s.cpu.registers.read base_register
    else wsub (s.cpu.registers.read base_register) ((words_to_transfer - 1) <<< 2)
  let base_address := if pre_increment then
      (if increment then wadd base_address 4 else wsub base_address 4)
    else base_address
  let s := s.setNextAccess ACCESS_NONSEQ
  let bs := (List.range 16).foldl
    (blockTransferStep spec transfer_type base_register rb_first_in_rlist
      words_to_transfer rlist) (base_address, s)
  let base_address := bs.1
  let s := bs.2
  if write_address_into_base ∧ ¬ (transfer_type = .LDM ∧ rb_in_rlist) then
    s.setRegs (s.cpu.registers.write base_register base_address)
  else s

/-- The opcode dispatch (`Arm7Cpu::execute_arm_opcode`).  The dispatch in
`src/cpu/mod.rs` is a stale draft (it omits the block-transfer arm and
passes a field the decoder no longer produces); following the spec's
instruction families, the block-transfer arm dispatches to
`execute_block_data_transfer`. -/
def executeArmOpcode (spec : BusSpec) (s : Exec) (op : DecodedArmOpcode) : Exec :=
  match op with
  | .B offset => executeB spec s offset
  | .BL offset => executeBL spec s offset
  | .BX register_idx => executeArmToThumbBx spec s register_idx
  | .DataProcessing operand rd rn sub_opcode set_flags =>
      executeDataProcessing spec s sub_opcode rd rn operand set_flags
  | .BlockDataTransfer base_register transfer_type pre_increment increment
      psr_n_force_user write_address_into_base rlist =>
      executeBlockDataTransfer spec s base_register transfer_type pre_increment
        increment psr_n_force_user write_address_into_base rlist

/-- `Arm7Cpu::execute_next_arm` from `src/cpu/mod.rs`: retire the decode
slot, advance the pipeline with a fetch at PC, decode, check the condition,
and either dispatch or (failed condition) consume a code fetch; a failed
decode only logs a message in the source and leaves all state as is. -/
def executeNextArm (spec : BusSpec) (s : Exec) : Exec :=
  let execute_opcode := s.cpu.pipeline0
  let s := s.setRegs (s.cpu.registers.write PC_IDX
    (s.cpu.registers.read PC_IDX &&& 4294967294))
  let s := { s with cpu := { s.cpu with pipeline0 := s.cpu.pipeline1 } }
  let r := busReadWord spec s (s.cpu.registers.read PC_IDX) s.cpu.next_access
  let s := { r.2 with cpu := { r.2.cpu with pipeline1 := r.1 } }
  match decodeArmOpcode execute_opcode with
  | some (.Arm opcode) =>
      if checkCondition s.cpu.registers execute_opcode then
        executeArmOpcode spec s opcode
      else
        let pr := s.cpu.registers.getAndIncrPc 4
        let r := busReadWord spec (s.setRegs pr.2) pr.1 ACCESS_CODE
        r.2.setNextAccess (ACCESS_CODE ||| ACCESS_SEQ)
  | _ => s

/-- `Arm7Cpu::step` from `src/cpu/mod.rs`; the Thumb arm is `todo!()` in
the source (a panic), modelled as the unchanged state. -/
def step (spec : BusSpec) (s : Exec) : Exec :=
  match s.cpu.registers.state with
  | .Arm => executeNextArm spec s
  | .Thumb => s

/-- The all-zero register file used by the scenario theorems. -/
def zeroRegs : RegisterFile where
  user_bank := fun _ => 0
  fiq_registers := fun _ => 0
  spsr_fiq := 0
  r13_svc := 0
  r14_svc := 0
  spsr_svc := 0
  r13_abt := 0
  r14_abt := 0
  spsr_abt := 0
  r13_irq := 0
  r14_irq := 0
  spsr_irq := 0
  r13_und := 0
  r14_und := 0
  spsr_und := 0
  cpsr := 0

/-- A trivial bus returning zero everywhere, for concrete scenarios. -/
def zeroBus : BusSpec where
  readW := fun _ _ => 0
  readH := fun _ _ => 0

/-- A bus whose word reads echo the address, for concrete scenarios. -/
def addrBus : BusSpec where
  readW := fun a _ => a
  readH := fun a _ => a

/-- The specification-side 16-entry condition table, written exactly from the
spec's words (§4.1): Equal=Z, NotEqual=!Z, CarrySet=C, CarryClear=!C,
Minus=N, Plus=!N, Overflow=V, NoOverflow=!V, UnsignedHigher=C&&!Z,
UnsignedLowerOrSame=!C||Z, GreaterOrEqual=N==V, LessThan=N!=V,
GreaterThan=!Z&&(N==V), LessOrEqual=Z||(N!=V), Always=true, Never=false.
It is compared against `checkCondition`, which is embedded from the
source. -/
def conditionSpecTable (code : Fin 16) (z c v n : Bool) : Bool :=
  match code.val with
  | 0 => z
  | 1 => !z
  | 2 => c
  | 3 => !c
  | 4 => n
  | 5 => !n
  | 6 => v
  | 7 => !v
  | 8 => c && !z
  | 9 => !c || z
  | 10 => n == v
  | 11 => n != v
  | 12 => !z && (n == v)
  | 13 => z || (n != v)
  | 14 => true
  | _ => false

/-- A status word with the given flags (Zero, Carry, Overflow, Sign) over a
valid mode encoding (System) in ARM state. -/
def flagsCpsr (z c v n : Bool) : Nat :=
  (if z then FLAG_ZERO else 0) ||| (if c then FLAG_CARRY else 0) |||
    (if v then FLAG_OVERFLOW else 0) ||| (if n then FLAG_SIGN else 0) ||| 31

/-- `zeroRegs` with the given status word. -/
def regsWithCpsr (w : Nat) : RegisterFile := { zeroRegs with cpsr := w }

/-- A reset-like execution state: all registers zero, the given status word,
given pipeline contents, next access a (non-sequential) code fetch, and an
empty transaction log. -/
def execWith (w p0 : Nat) : Exec :=
  { cpu := { registers := regsWithCpsr w
             pipeline0 := p0
             pipeline1 := 0
             next_access := ACCESS_CODE }
    log := [] }

/-- An execution state whose register file is `rf`, with empty pipeline and
log. -/
def execWithRegs (rf : RegisterFile) : Exec :=
  { cpu := { registers := rf
             pipeline0 := 0
             pipeline1 := 0
             next_access := ACCESS_CODE }
    log := [] }

/-- The reset scenario state: all registers zero, mode Supervisor, state
Arm, the decode pipeline slot holding the word the bus returns at the reset
address, and the reset-value next-access flag (`ACCESS_CODE`, as set by
`Arm7Cpu::new`). -/
def resetExec (spec : BusSpec) (p1 : Nat) : Exec :=
  { cpu := { registers := regsWithCpsr 19
             pipeline0 := spec.readW 0 ACCESS_CODE
             pipeline1 := p1
             next_access := ACCESS_CODE }
    log := [] }

/-- The register file of the C3 counterexample scenario: System mode,
register 2 holds 0x100. -/
def stmRegs : RegisterFile :=
  { zeroRegs with
    cpsr := 31
    user_bank := fun i => if i.val = 2 then 256 else 0 }

/-- The register file of the C8 load scenario: System mode, register 0
holds 0x100. -/
def ldmRegs : RegisterFile :=
  { zeroRegs with
    cpsr := 31
    user_bank := fun i => if i.val = 0 then 256 else 0 }

theorem RegisterFile.write_cpsr (rf : RegisterFile) (i v : Nat) :
    (rf.write i v).cpsr = rf.cpsr := by
  unfold RegisterFile.write
  split
  · rcases h : rf.mode? with _ | m
    · simp only [h]
    · cases m <;> simp only [h] <;> split_ifs <;> rfl
  · rfl

theorem RegisterFile.write_mode (rf : RegisterFile) (i v : Nat) :
    (rf.write i v).mode? = rf.mode? := by
  unfold RegisterFile.mode?
  rw [RegisterFile.write_cpsr]

theorem RegisterFile.write_state (rf : RegisterFile) (i v : Nat) :
    (rf.write i v).state = rf.state := by
  unfold RegisterFile.state
  rw [RegisterFile.write_cpsr]

theorem RegisterFile.read_shared (rf : RegisterFile) (i : Nat)
    (hm : (rf.mode?).isSome) (hi : i < 8 ∨ i = 15) (h16 : i < 16) :
    rf.read i = rf.user_bank ⟨i, h16⟩ := by
  unfold RegisterFile.read
  rw [dif_pos h16]
  rcases h : rf.mode? with _ | m
  · rw [h] at hm; simp at hm
  · cases m <;> simp only []
    · rw [dif_neg (by omega)]
    · rw [if_neg (by omega), if_neg (by omega)]
    · rw [if_neg (by omega), if_neg (by omega)]
    · rw [if_neg (by omega), if_neg (by omega)]
    · rw [if_neg (by omega), if_neg (by omega)]

theorem RegisterFile.write_shared (rf : RegisterFile) (i v : Nat)
    (hm : (rf.mode?).isSome) (hi : i < 8 ∨ i = 15) (h16 : i < 16) :
    rf.write i v = { rf with user_bank := Function.update rf.user_bank ⟨i, h16⟩ v } := by
  unfold RegisterFile.write
  rw [dif_pos h16]
  rcases h : rf.mode? with _ | m
  · rw [h] at hm; simp at hm
  · cases m <;> simp only []
    · rw [dif_neg (by omega)]
    · rw [if_neg (by omega), if_neg (by omega)]
    · rw [if_neg (by omega), if_neg (by omega)]
    · rw [if_neg (by omega), if_neg (by omega)]
    · rw [if_neg (by omega), if_neg (by omega)]

theorem testBit_big_ones {j : Nat} (hj : j < 32) : (4294967295 : Nat).testBit j = true := by
  have h : (4294967295 : Nat) = 2 ^ 32 - 1 := by norm_num
  rw [h, Nat.testBit_two_pow_sub_one]
  simpa using hj

theorem RegisterFile.updateFlag_testBit (rf : RegisterFile) (k j : Nat) (b : Bool)
    (hj : j < 32) :
    ((rf.updateFlag (1 <<< k) b).cpsr).testBit j =
      if j = k then b else rf.cpsr.testBit j := by
  unfold RegisterFile.updateFlag not32
  rw [Nat.one_shiftLeft]
  cases b
  · rw [if_neg (by simp)]
    by_cases hjk : j = k
    · subst hjk
      simp [Nat.testBit_and, Nat.testBit_xor, Nat.testBit_two_pow_self, testBit_big_ones hj]
    · simp only [Nat.testBit_and, Nat.testBit_xor, testBit_big_ones hj,
        Nat.testBit_two_pow_of_ne (fun h => hjk h.symm), if_neg hjk,
        Bool.xor_false, Bool.and_true]
  · rw [if_pos rfl]
    by_cases hjk : j = k
    · subst hjk
      simp [Nat.testBit_lor, Nat.testBit_two_pow_self]
    · simp [Nat.testBit_lor, Nat.testBit_two_pow_of_ne (fun h => hjk h.symm), hjk]

theorem reloadPipeline32_log (spec : BusSpec) (s : Exec) :
    (reloadPipeline32 spec s).log =
      s.log ++ [.readWord (s.cpu.registers.user_bank 15) s.cpu.next_access,
        .readWord (wadd (s.cpu.registers.user_bank 15) 4) (ACCESS_CODE ||| ACCESS_SEQ)] := by
  unfold reloadPipeline32 busReadWord RegisterFile.getAndIncrPc Exec.setRegs Exec.setNextAccess
  simp [Function.update_same, List.append_assoc]

theorem reloadPipeline32_user_bank (spec : BusSpec) (s : Exec) :
    (reloadPipeline32 spec s).cpu.registers.user_bank =
      Function.update s.cpu.registers.user_bank 15
        (wadd (wadd (s.cpu.registers.user_bank 15) 4) 4) := by
  unfold reloadPipeline32 busReadWord RegisterFile.getAndIncrPc Exec.setRegs Exec.setNextAccess
  simp [Function.update_same, Function.update_idem]

theorem reloadPipeline32_cpsr (spec : BusSpec) (s : Exec) :
    (reloadPipeline32 spec s).cpu.registers.cpsr = s.cpu.registers.cpsr := rfl

theorem reloadPipeline32_next_access (spec : BusSpec) (s : Exec) :
    (reloadPipeline32 spec s).cpu.next_access = ACCESS_CODE ||| ACCESS_SEQ := rfl

/-- C2: for every 4-bit condition code and every combination of the four
condition flags, `check_condition` returns exactly the predicate of the
spec's 16-entry table (Equal=Z, NotEqual=!Z, CarrySet=C, CarryClear=!C,
Minus=N, Plus=!N, Overflow=V, NoOverflow=!V, UnsignedHigher=C&&!Z,
UnsignedLowerOrSame=!C||Z, GreaterOrEqual=N==V, LessThan=N!=V,
GreaterThan=!Z&&(N==V), LessOrEqual=Z||(N!=V), Always=true, Never=false). -/
theorem C2_condition_table :
    ∀ (code : Fin 16) (z c v n : Bool),
      checkCondition (regsWithCpsr (flagsCpsr z c v n)) (code.val <<< 28) =
        conditionSpecTable code z c v n := by
  decide

/-- C7: encoding any enumerated CPU mode and execution state into the status
word's bitfields and decoding them back through `TryFrom` yields the
original mode and state; and any status word whose mode bitfield is not one
of the enumerated encodings decodes to an error (`none`), not a silent
default. -/
theorem C7_mode_state_roundtrip :
    (∀ (m : CpuMode) (st : CpuState),
      cpuModeTryFrom (cpuModeBits m ||| cpuStateBits st) = some m ∧
      cpuStateTryFrom ((cpuModeBits m ||| cpuStateBits st) &&& FLAG_STATE) = some st) ∧
    (∀ w : Nat, (∀ m : CpuMode, w &&& 31 ≠ cpuModeBits m) → cpuModeTryFrom w = none) := by
  refine ⟨by decide, ?_⟩
  intro w h
  unfold cpuModeTryFrom
  split_ifs with h1 h2 h3 h4 h5 h6 h7
  · exact absurd h1 (by simpa [cpuModeBits] using h .User)
  · exact absurd h2 (by simpa [cpuModeBits] using h .Fiq)
  · exact absurd h3 (by simpa [cpuModeBits] using h .Irq)
  · exact absurd h4 (by simpa [cpuModeBits] using h .Supervisor)
  · exact absurd h5 (by simpa [cpuModeBits] using h .Abort)
  · exact absurd h6 (by simpa [cpuModeBits] using h .Undefined)
  · exact absurd h7 (by simpa [cpuModeBits] using h .System)
  · rfl

/-- Witness for C7 at concrete inputs: the status word 5 has mode bitfield
5, which is not an enumerated encoding, and the Fiq/Thumb pair
round-trips. -/
theorem C7_mode_state_roundtrip_witness :
    cpuModeTryFrom 5 = none ∧
    cpuModeTryFrom (cpuModeBits .Fiq ||| cpuStateBits .Thumb) = some CpuMode.Fiq :=
  ⟨C7_mode_state_roundtrip.2 5 (by decide), (C7_mode_state_roundtrip.1 .Fiq .Thumb).1⟩

/-- C10: in every CPU mode, indexed register access at indices 0-7 and 15
resolves to the shared user bank: reads return the user-bank slot (hence
the same value in every mode) and writes update only the user bank, leaving
the FIQ, Supervisor, Abort, IRQ and Undefined banked storage untouched. -/
theorem C10_shared_bank_indices (rf : RegisterFile) (i v : Nat)
    (hm : (rf.mode?).isSome) (hi : i < 8 ∨ i = 15) :
      rf.read i = rf.user_bank ⟨i, by omega⟩ ∧
      (rf.write i v).user_bank = Function.update rf.user_bank ⟨i, by omega⟩ v ∧
      (rf.write i v).fiq_registers = rf.fiq_registers ∧
      (rf.write i v).r13_svc = rf.r13_svc ∧ (rf.write i v).r14_svc = rf.r14_svc ∧
      (rf.write i v).r13_abt = rf.r13_abt ∧ (rf.write i v).r14_abt = rf.r14_abt ∧
      (rf.write i v).r13_irq = rf.r13_irq ∧ (rf.write i v).r14_irq = rf.r14_irq ∧
      (rf.write i v).r13_und = rf.r13_und ∧ (rf.write i v).r14_und = rf.r14_und := by
  have h16 : i < 16 := by omega
  rw [RegisterFile.read_shared rf i hm hi h16, RegisterFile.write_shared rf i v hm hi h16]
  exact ⟨rfl, rfl, rfl, rfl, rfl, rfl, rfl, rfl, rfl, rfl, rfl⟩

/-- Witness for C10: mode Supervisor (status word 19), index 3, value 7. -/
theorem C10_shared_bank_indices_witness :
    ((regsWithCpsr 19).mode?).isSome ∧ ((3 : Nat) < 8 ∨ (3 : Nat) = 15) ∧
    ((regsWithCpsr 19).read 3 = (regsWithCpsr 19).user_bank ⟨3, by omega⟩ ∧
      (((regsWithCpsr 19).write 3 7).user_bank =
        Function.update (regsWithCpsr 19).user_bank ⟨3, by omega⟩ 7) ∧
      ((regsWithCpsr 19).write 3 7).fiq_registers = (regsWithCpsr 19).fiq_registers ∧
      ((regsWithCpsr 19).write 3 7).r13_svc = (regsWithCpsr 19).r13_svc ∧
      ((regsWithCpsr 19).write 3 7).r14_svc = (regsWithCpsr 19).r14_svc ∧
      ((regsWithCpsr 19).write 3 7).r13_abt = (regsWithCpsr 19).r13_abt ∧
      ((regsWithCpsr 19).write 3 7).r14_abt = (regsWithCpsr 19).r14_abt ∧
      ((regsWithCpsr 19).write 3 7).r13_irq = (regsWithCpsr 19).r13_irq ∧
      ((regsWithCpsr 19).write 3 7).r14_irq = (regsWithCpsr 19).r14_irq ∧
      ((regsWithCpsr 19).write 3 7).r13_und = (regsWithCpsr 19).r13_und ∧
      ((regsWithCpsr 19).write 3 7).r14_und = (regsWithCpsr 19).r14_und) :=
  ⟨by decide, by decide, C10_shared_bank_indices (regsWithCpsr 19) 3 7 (by decide) (by decide)⟩

theorem read15_reloadPipeline32 (spec : BusSpec) (t : Exec)
    (hm2 : (t.cpu.registers.mode?).isSome) :
    (reloadPipeline32 spec t).cpu.registers.read PC_IDX =
      wadd (wadd (t.cpu.registers.user_bank 15) 4) 4 := by
  have h16 : PC_IDX < 16 := by norm_num [PC_IDX]
  have hmr : ((reloadPipeline32 spec t).cpu.registers.mode?).isSome := by
    unfold RegisterFile.mode?
    rw [reloadPipeline32_cpsr]
    exact hm2
  rw [RegisterFile.read_shared _ PC_IDX hmr (Or.inr rfl) h16, reloadPipeline32_user_bank]
  exact Function.update_same _ _ _

theorem reloadPipeline_arm (spec : BusSpec) (s : Exec)
    (h : s.cpu.registers.state = .Arm) :
    reloadPipeline spec s = reloadPipeline32 spec s := by
  unfold reloadPipeline
  rw [h]

theorem executeB_observables (spec : BusSpec) (s : Exec) (O : Nat)
    (hm : (s.cpu.registers.mode?).isSome)
    (hst : s.cpu.registers.state = .Arm)
    (hO : O < 16777216) :
    (executeB spec s O).log =
      s.log ++ [.readWord (wadd (s.cpu.registers.read PC_IDX) (wmul (sext24 O) 4))
          (ACCESS_CODE ||| ACCESS_SEQ),
        .readWord (wadd (wadd (s.cpu.registers.read PC_IDX) (wmul (sext24 O) 4)) 4)
          (ACCESS_CODE ||| ACCESS_SEQ)] ∧
    (executeB spec s O).cpu.registers.read PC_IDX =
      (s.cpu.registers.read PC_IDX + sext24 O * 4 + 8) % MOD32 ∧
    isSeqAccess (ACCESS_CODE ||| ACCESS_SEQ) = true ∧
    isCodeAccess (ACCESS_CODE ||| ACCESS_SEQ) = true := by
  have h16 : PC_IDX < 16 := by norm_num [PC_IDX]
  have hwrite := RegisterFile.write_shared s.cpu.registers PC_IDX
    (wadd (s.cpu.registers.read PC_IDX) (wmul (sext24 O) 4)) hm (Or.inr rfl) h16
  simp only [executeB]
  rw [hwrite, reloadPipeline_arm _ _ (by exact hst)]
  refine ⟨?_, ?_, by decide, by decide⟩
  · rw [reloadPipeline32_log]
    simp [Exec.setRegs, Exec.setNextAccess, Function.update_same,
      show (⟨PC_IDX, h16⟩ : Fin 16) = (15 : Fin 16) from rfl]
  · rw [read15_reloadPipeline32 _ _ (by exact hm)]
    simp only [Exec.setRegs, Exec.setNextAccess,
      show (⟨PC_IDX, h16⟩ : Fin 16) = (15 : Fin 16) from rfl, Function.update_same]
    unfold wadd wmul MOD32
    omega

/-- C1 (amended): executing Branch with PC = P and 24-bit offset O sets the
branch destination to `P + sign_extend(O) * 4` with 32-bit wrapping
arithmetic, and the pipeline reload issues exactly two code-fetch bus reads,
at the new PC and at new PC + 4 — but BOTH are tagged sequential (Branch
marks the next access as a sequential code fetch before reloading), not
(non-sequential, sequential) as the claim states; afterwards the PC register
holds destination + 8 (the two-instruction pipeline lead). -/
theorem C1_branch_reload_amended (spec : BusSpec) (s : Exec) (O : Nat)
    (hm : (s.cpu.registers.mode?).isSome)
    (hst : s.cpu.registers.state = .Arm)
    (hO : O < 16777216) :
    (executeB spec s O).log =
      s.log ++ [.readWord (wadd (s.cpu.registers.read PC_IDX) (wmul (sext24 O) 4))
          (ACCESS_CODE ||| ACCESS_SEQ),
        .readWord (wadd (wadd (s.cpu.registers.read PC_IDX) (wmul (sext24 O) 4)) 4)
          (ACCESS_CODE ||| ACCESS_SEQ)] ∧
    (executeB spec s O).cpu.registers.read PC_IDX =
      (s.cpu.registers.read PC_IDX + sext24 O * 4 + 8) % MOD32 ∧
    isSeqAccess (ACCESS_CODE ||| ACCESS_SEQ) = true ∧
    isCodeAccess (ACCESS_CODE ||| ACCESS_SEQ) = true :=
  executeB_observables spec s O hm hst hO

/-- C1 counterexample: at PC = 0 with offset 0, the two pipeline-reload
reads are both tagged `ACCESS_CODE ||| ACCESS_SEQ`; in particular the first
one is tagged sequential, not non-sequential as the claim states. -/
theorem C1_branch_reload_counterexample :
    (executeB zeroBus (execWith 19 0) 0).log =
      [.readWord 0 (ACCESS_CODE ||| ACCESS_SEQ), .readWord 4 (ACCESS_CODE ||| ACCESS_SEQ)] ∧
    isSeqAccess (ACCESS_CODE ||| ACCESS_SEQ) = true ∧
    isSeqAccess ACCESS_NONSEQ = false := by
  exact ⟨rfl, by decide, by decide⟩

/-- Witness for C1 (amended) at the concrete reset-like state with offset
0: both hypotheses hold and the amended conclusion follows. -/
theorem C1_branch_reload_witness :
    ((execWith 19 0).cpu.registers.mode?).isSome ∧
    (execWith 19 0).cpu.registers.state = .Arm ∧ (0 : Nat) < 16777216 ∧
    ((executeB zeroBus (execWith 19 0) 0).log =
      (execWith 19 0).log ++
        [.readWord (wadd ((execWith 19 0).cpu.registers.read PC_IDX) (wmul (sext24 0) 4))
            (ACCESS_CODE ||| ACCESS_SEQ),
          .readWord (wadd (wadd ((execWith 19 0).cpu.registers.read PC_IDX)
              (wmul (sext24 0) 4)) 4) (ACCESS_CODE ||| ACCESS_SEQ)] ∧
      (executeB zeroBus (execWith 19 0) 0).cpu.registers.read PC_IDX =
        ((execWith 19 0).cpu.registers.read PC_IDX + sext24 0 * 4 + 8) % MOD32 ∧
      isSeqAccess (ACCESS_CODE ||| ACCESS_SEQ) = true ∧
      isCodeAccess (ACCESS_CODE ||| ACCESS_SEQ) = true) :=
  ⟨by decide, by decide, by decide,
    C1_branch_reload_amended zeroBus (execWith 19 0) 0 (by decide) (by decide) (by decide)⟩

theorem reloadPipeline16_cpsr (spec : BusSpec) (s : Exec) :
    (reloadPipeline16 spec s).cpu.registers.cpsr = s.cpu.registers.cpsr := rfl

theorem reloadPipeline_cpsr (spec : BusSpec) (s : Exec) :
    (reloadPipeline spec s).cpu.registers.cpsr = s.cpu.registers.cpsr := by
  unfold reloadPipeline
  rcases h : s.cpu.registers.state
  · exact reloadPipeline32_cpsr spec s
  · exact reloadPipeline16_cpsr spec s

theorem executeB_cpsr (spec : BusSpec) (s : Exec) (O : Nat) :
    (executeB spec s O).cpu.registers.cpsr = s.cpu.registers.cpsr := by
  simp only [executeB]
  rw [reloadPipeline_cpsr]
  exact RegisterFile.write_cpsr _ _ _

theorem RegisterFile.read_write_same (rf : RegisterFile) (i v : Nat)
    (hm : (rf.mode?).isSome) (h16 : i < 16) : (rf.write i v).read i = v := by
  unfold RegisterFile.read
  rw [dif_pos h16, RegisterFile.write_mode]
  rcases h : rf.mode? with _ | m
  · rw [h] at hm; simp at hm
  · unfold RegisterFile.write
    rw [dif_pos h16, h]
    cases m <;> simp only []
    · exact Function.update_same _ _ _
    · split_ifs <;> exact Function.update_same _ _ _
    · split_ifs <;> first | rfl | exact Function.update_same _ _ _
    · split_ifs <;> first | rfl | exact Function.update_same _ _ _
    · split_ifs <;> first | rfl | exact Function.update_same _ _ _
    · split_ifs <;> first | rfl | exact Function.update_same _ _ _
    · exact Function.update_same _ _ _

/-- C9: after BranchLink, the link register (register 14 of the current
mode, which BranchLink leaves unchanged) equals the program counter value
current immediately before the branch mutated PC, minus 4 with 32-bit
wrapping; the link value is captured before Branch's side effects run, so
it does not depend on the branch destination or on anything the bus
returns. -/
theorem C9_branch_link_register (spec : BusSpec) (s : Exec) (O : Nat)
    (hm : (s.cpu.registers.mode?).isSome) :
    (executeBL spec s O).cpu.registers.read 14 =
      (s.cpu.registers.read PC_IDX + (MOD32 - 4)) % MOD32 ∧
    (executeBL spec s O).cpu.registers.mode? = s.cpu.registers.mode? := by
  have hm1 : (((executeB spec s O).cpu.registers).mode?).isSome := by
    unfold RegisterFile.mode?
    rw [executeB_cpsr]
    exact hm
  constructor
  · simp only [executeBL]
    rw [show ((executeB spec s O).setRegs
        ((executeB spec s O).cpu.registers.write 14
          (wsub (s.cpu.registers.read PC_IDX) 4))).cpu.registers =
        (executeB spec s O).cpu.registers.write 14
          (wsub (s.cpu.registers.read PC_IDX) 4) from rfl]
    rw [RegisterFile.read_write_same _ 14 _ hm1 (by norm_num)]
    unfold wsub MOD32
    norm_num
  · simp only [executeBL]
    rw [show ((executeB spec s O).setRegs
        ((executeB spec s O).cpu.registers.write 14
          (wsub (s.cpu.registers.read PC_IDX) 4))).cpu.registers =
        (executeB spec s O).cpu.registers.write 14
          (wsub (s.cpu.registers.read PC_IDX) 4) from rfl]
    rw [RegisterFile.write_mode]
    unfold RegisterFile.mode?
    rw [executeB_cpsr]

/-- Witness for C9 at the concrete reset-like state with offset 2:
the link register receives 0 - 4 = 0xFFFFFFFC. -/
theorem C9_branch_link_register_witness :
    ((execWith 19 0).cpu.registers.mode?).isSome ∧
    ((executeBL zeroBus (execWith 19 0) 2).cpu.registers.read 14 =
      ((execWith 19 0).cpu.registers.read PC_IDX + (MOD32 - 4)) % MOD32 ∧
    (executeBL zeroBus (execWith 19 0) 2).cpu.registers.mode? =
      (execWith 19 0).cpu.registers.mode?) :=
  ⟨by decide, C9_branch_link_register zeroBus (execWith 19 0) 2 (by decide)⟩

theorem executeArmOpcode_B (spec : BusSpec) (s : Exec) (O : Nat) :
    executeArmOpcode spec s (.B O) = executeB spec s O := rfl

theorem executeNextArm_dispatch (spec : BusSpec) (s : Exec) (op : DecodedArmOpcode)
    (hdec : decodeArmOpcode s.cpu.pipeline0 = some (.Arm op))
    (hcond : checkCondition
      (s.cpu.registers.write PC_IDX (s.cpu.registers.read PC_IDX &&& 4294967294))
      s.cpu.pipeline0 = true) :
    executeNextArm spec s = executeArmOpcode spec
      { cpu := { registers :=
                   s.cpu.registers.write PC_IDX (s.cpu.registers.read PC_IDX &&& 4294967294)
                 pipeline0 := s.cpu.pipeline1
                 pipeline1 := (spec.readW
                   ((s.cpu.registers.write PC_IDX
                      (s.cpu.registers.read PC_IDX &&& 4294967294)).read PC_IDX)
                   s.cpu.next_access) % MOD32
                 next_access := s.cpu.next_access }
        log := s.log ++ [.readWord
          ((s.cpu.registers.write PC_IDX
             (s.cpu.registers.read PC_IDX &&& 4294967294)).read PC_IDX)
          s.cpu.next_access] } op := by
  simp only [executeNextArm, busReadWord, Exec.setRegs, Exec.setNextAccess]
  rw [hdec]
  simp only [hcond, if_true]

theorem executeNextArm_branch (spec : BusSpec) (s : Exec) (O : Nat)
    (hdec : decodeArmOpcode s.cpu.pipeline0 = some (.Arm (.B O)))
    (hcond : checkCondition
      (s.cpu.registers.write PC_IDX (s.cpu.registers.read PC_IDX &&& 4294967294))
      s.cpu.pipeline0 = true)
    (hm : (((s.cpu.registers.write PC_IDX
        (s.cpu.registers.read PC_IDX &&& 4294967294))).mode?).isSome)
    (hst : (s.cpu.registers.write PC_IDX
        (s.cpu.registers.read PC_IDX &&& 4294967294)).state = .Arm)
    (hO : O < 16777216) :
    (executeNextArm spec s).cpu.registers.read PC_IDX =
      (((s.cpu.registers.write PC_IDX
          (s.cpu.registers.read PC_IDX &&& 4294967294)).read PC_IDX) +
        sext24 O * 4 + 8) % MOD32 ∧
    (executeNextArm spec s).log =
      s.log ++ [.readWord ((s.cpu.registers.write PC_IDX
          (s.cpu.registers.read PC_IDX &&& 4294967294)).read PC_IDX) s.cpu.next_access,
        .readWord (wadd ((s.cpu.registers.write PC_IDX
            (s.cpu.registers.read PC_IDX &&& 4294967294)).read PC_IDX)
          (wmul (sext24 O) 4)) (ACCESS_CODE ||| ACCESS_SEQ),
        .readWord (wadd (wadd ((s.cpu.registers.write PC_IDX
            (s.cpu.registers.read PC_IDX &&& 4294967294)).read PC_IDX)
          (wmul (sext24 O) 4)) 4) (ACCESS_CODE ||| ACCESS_SEQ)] := by
  rw [executeNextArm_dispatch spec s (.B O) hdec hcond, executeArmOpcode_B]
  obtain ⟨hlog, hpc, -, -⟩ := executeB_observables spec
    { cpu := { registers :=
                 s.cpu.registers.write PC_IDX (s.cpu.registers.read PC_IDX &&& 4294967294)
               pipeline0 := s.cpu.pipeline1
               pipeline1 := (spec.readW
                 ((s.cpu.registers.write PC_IDX
                    (s.cpu.registers.read PC_IDX &&& 4294967294)).read PC_IDX)
                 s.cpu.next_access) % MOD32
               next_access := s.cpu.next_access }
      log := s.log ++ [.readWord
        ((s.cpu.registers.write PC_IDX
           (s.cpu.registers.read PC_IDX &&& 4294967294)).read PC_IDX)
        s.cpu.next_access] }
    O hm hst hO
  constructor
  · rw [hpc]
  · rw [hlog]
    simp [List.append_assoc]

/-- C6: starting from all-zero registers in Supervisor mode and ARM state,
with a bus that returns the word 0xEA000002 ("B #2") at the reset address
(so that word sits in the execute slot of the pipeline), a single `step`
leaves PC = 0x10 (= 0 + 2*4 + the pipeline lead of 8) and issues exactly
two further code-fetch reads after the pipeline fetch at the reset address:
at 8 and at 12. -/
theorem C6_reset_branch_scenario (spec : BusSpec) (p1 : Nat)
    (h : spec.readW 0 ACCESS_CODE = 0xEA000002) :
    (step spec (resetExec spec p1)).cpu.registers.read PC_IDX = 0x10 ∧
    (step spec (resetExec spec p1)).log =
      [.readWord 0 ACCESS_CODE, .readWord 8 (ACCESS_CODE ||| ACCESS_SEQ),
        .readWord 12 (ACCESS_CODE ||| ACCESS_SEQ)] := by
  have hregs : (resetExec spec p1).cpu.registers = regsWithCpsr 19 := rfl
  have hop : (resetExec spec p1).cpu.pipeline0 = (0xEA000002 : Nat) := h
  have hstep : step spec (resetExec spec p1) = executeNextArm spec (resetExec spec p1) := by
    unfold step
    rw [hregs, show (regsWithCpsr 19).state = CpuState.Arm from by decide]
  have hdec2 : decodeArmOpcode (resetExec spec p1).cpu.pipeline0 =
      some (.Arm (.B 2)) := by
    rw [hop]
    decide
  have hcond2 : checkCondition ((resetExec spec p1).cpu.registers.write PC_IDX
      ((resetExec spec p1).cpu.registers.read PC_IDX &&& 4294967294))
      (resetExec spec p1).cpu.pipeline0 = true := by
    rw [hregs, hop]
    decide
  have hm2 : ((((resetExec spec p1).cpu.registers.write PC_IDX
      ((resetExec spec p1).cpu.registers.read PC_IDX &&& 4294967294))).mode?).isSome := by
    rw [hregs]
    decide
  have hst2 : ((resetExec spec p1).cpu.registers.write PC_IDX
      ((resetExec spec p1).cpu.registers.read PC_IDX &&& 4294967294)).state =
      CpuState.Arm := by
    rw [hregs]
    decide
  obtain ⟨hpc, hlog⟩ :=
    executeNextArm_branch spec (resetExec spec p1) 2 hdec2 hcond2 hm2 hst2 (by decide)
  rw [hstep]
  constructor
  · rw [hpc, hregs]
    decide
  · rw [hlog, hregs, show (resetExec spec p1).log = ([] : List BusEvent) from rfl,
      show (resetExec spec p1).cpu.next_access = ACCESS_CODE from rfl]
    decide

/-- Witness for C6 with a concrete bus that returns 0xEA000002 at the reset
address. -/
theorem C6_reset_branch_scenario_witness :
    ({ readW := fun a _ => if a = 0 then 0xEA000002 else 0
       readH := fun _ _ => 0 : BusSpec }).readW 0 ACCESS_CODE = 0xEA000002 ∧
    ((step { readW := fun a _ => if a = 0 then 0xEA000002 else 0
             readH := fun _ _ => 0 : BusSpec }
        (resetExec { readW := fun a _ => if a = 0 then 0xEA000002 else 0
                     readH := fun _ _ => 0 : BusSpec } 0)).cpu.registers.read PC_IDX = 0x10 ∧
      (step { readW := fun a _ => if a = 0 then 0xEA000002 else 0
              readH := fun _ _ => 0 : BusSpec }
        (resetExec { readW := fun a _ => if a = 0 then 0xEA000002 else 0
                     readH := fun _ _ => 0 : BusSpec } 0)).log =
        [.readWord 0 ACCESS_CODE, .readWord 8 (ACCESS_CODE ||| ACCESS_SEQ),
          .readWord 12 (ACCESS_CODE ||| ACCESS_SEQ)]) :=
  ⟨rfl, C6_reset_branch_scenario _ 0 rfl⟩

theorem log_ite_setRegs (c : Prop) [Decidable c] (s : Exec) (rf : RegisterFile) :
    (if c then s.setRegs rf else s).log = s.log := by
  split <;> rfl

/-- C8: an LDM or STM whose register bitmap is zero behaves exactly as if
only bit 15 were set (for every starting state, bus, base register,
direction, indexing mode and writeback choice), and it transfers exactly
one word: the general STM case produces exactly one data write, and the
concrete LDM scenario shows one data read at the slot register 15 would
occupy (the base address 0x100) followed only by the pipeline reload that
loading register 15 triggers, with PC = loaded word + 8 afterwards. -/
theorem C8_empty_rlist_r15 :
    (∀ (spec : BusSpec) (s : Exec) (base : Nat) (tt : BlockTransferType)
        (pre inc psr wb : Bool),
      executeBlockDataTransfer spec s base tt pre inc psr wb 0 =
        executeBlockDataTransfer spec s base tt pre inc psr wb 32768) ∧
    (∀ (spec : BusSpec) (s : Exec) (base : Nat) (pre inc psr wb : Bool),
      ∃ a d, (executeBlockDataTransfer spec s base .STM pre inc psr wb 0).log =
        s.log ++ [.writeWord a d ACCESS_NONSEQ]) ∧
    ((executeBlockDataTransfer addrBus (execWithRegs ldmRegs) 0
        .LDM false true false false 0).log =
      [.readWord 256 ACCESS_NONSEQ, .readWord 256 ACCESS_SEQ,
        .readWord 260 (ACCESS_CODE ||| ACCESS_SEQ)] ∧
      (executeBlockDataTransfer addrBus (execWithRegs ldmRegs) 0
        .LDM false true false false 0).cpu.registers.read PC_IDX = 264) := by
  refine ⟨?_, ?_, by decide, by decide⟩
  · intro spec s base tt pre inc psr wb
    rfl
  · intro spec s base pre inc psr wb
    simp only [executeBlockDataTransfer]
    rw [log_ite_setRegs]
    exact ⟨_, _, rfl⟩

/-- C3: evaluation of `execute_block_data_transfer` at the failing inputs.
STMIA r2!, {r2} with r2 = 0x100: r2 IS the lowest (only) set bit, so per
the claim (and the comment in the source) the ORIGINAL value 0x100 should
be stored, but the code stores the adjusted value 0x104, because
`rb_first_in_rlist` is computed as `trailing_zeros + 1 == base` (an
off-by-one; it should be `trailing_zeros == base`).  Conversely, for
STMIA r2!, {r1, r2} with r2 NOT the lowest set bit, the claim requires the
post-writeback value 0x108, but the code stores the original 0x100. -/
theorem C3_stm_base_aliasing_bug :
    ((executeBlockDataTransfer zeroBus (execWithRegs stmRegs) 2
        .STM false true false true 4).log =
      [.writeWord 256 260 ACCESS_NONSEQ] ∧ (260 : Nat) ≠ 256) ∧
    ((executeBlockDataTransfer zeroBus (execWithRegs stmRegs) 2
        .STM false true false true 6).log =
      [.writeWord 256 0 ACCESS_NONSEQ, .writeWord 260 256 ACCESS_SEQ] ∧
      (256 : Nat) ≠ 264) := by
  exact ⟨⟨by decide, by decide⟩, ⟨by decide, by decide⟩⟩

theorem land_shift_ne_testBit (v k : Nat) : (v &&& (1 <<< k) != 0) = v.testBit k := by
  rw [Nat.one_shiftLeft, Nat.and_two_pow]
  rcases h : v.testBit k <;> simp [bne_iff_ne]

theorem land_one_ne_testBit (v : Nat) : (v &&& 1 != 0) = v.testBit 0 := by
  have := land_shift_ne_testBit v 0
  simpa using this

theorem testBit_31_ge {v : Nat} (h : v.testBit 31 = true) : 2147483648 ≤ v := by
  rw [Nat.testBit_to_div_mod] at h
  simp only [decide_eq_true_eq] at h
  omega

theorem testBit_31_lt {v : Nat} (hv : v < 4294967296) (h : v.testBit 31 = false) :
    v < 2147483648 := by
  rw [Nat.testBit_to_div_mod] at h
  simp only [decide_eq_false_iff_not] at h
  omega

theorem asr31_cases {v : Nat} (hv : v < 4294967296) :
    ofI32 (Int.fdiv (toI32 v) (2 ^ 31)) = if v.testBit 31 then 4294967295 else 0 := by
  rcases h : v.testBit 31
  · have hlt : v < 2147483648 := testBit_31_lt hv h
    unfold toI32 ofI32
    rw [if_pos hlt, Int.fdiv_eq_ediv _ (by positivity),
      Int.ediv_eq_zero_of_lt (by positivity) (by exact_mod_cast hlt)]
    decide
  · have hge : 2147483648 ≤ v := testBit_31_ge h
    unfold toI32 ofI32
    rw [if_neg (by omega)]
    rw [Int.fdiv_eq_ediv _ (by positivity)]
    have hd : ((v : Int) - 4294967296) / 2 ^ 31 = -1 := by
      have h1 : (2147483648 : Int) ≤ (v : Int) := by exact_mod_cast hge
      have h2 : (v : Int) < 4294967296 := by exact_mod_cast hv
      have h3 : ((2 : Int) ^ 31) = 2147483648 := by norm_num
      rw [h3]
      omega
    rw [hd]
    decide

theorem add_two_pow_31_eq_lor {x : Nat} (h : x < 2147483648) :
    x + 2147483648 = x ||| 2147483648 := by
  have h31 : (2147483648 : Nat) = 2 ^ 31 := by norm_num
  apply Nat.eq_of_testBit_eq
  intro j
  rcases lt_trichotomy j 31 with hj | hj | hj
  · rw [Nat.testBit_lor, h31, Nat.add_comm, Nat.testBit_two_pow_add_gt hj,
      Nat.testBit_two_pow_of_ne (by omega), Bool.or_false]
  · subst hj
    rw [Nat.testBit_lor, h31, Nat.add_comm, Nat.testBit_two_pow_add_eq,
      Nat.testBit_lt_two_pow (by omega), Nat.testBit_two_pow_self]
    rfl
  · rw [Nat.testBit_lor, h31, Nat.testBit_lt_two_pow (x := x + 2 ^ 31)
      (by calc x + 2 ^ 31 < 2 ^ 32 := by norm_num; omega
           _ ≤ 2 ^ j := Nat.pow_le_pow_right (by norm_num) (by omega)),
      Nat.testBit_lt_two_pow (x := x)
      (by calc x < 2 ^ 31 := by omega
           _ ≤ 2 ^ j := Nat.pow_le_pow_right (by norm_num) (by omega)),
      Nat.testBit_two_pow_of_ne (by omega)]
    rfl


theorem ror32_one {v : Nat} (hv : v < 4294967296) :
    ror32 v 1 = v / 2 + (v % 2) * 2147483648 := by
  unfold ror32 MOD32
  simp only [show (1 : Nat) % 32 = 1 from rfl, show (32 : Nat) - 1 = 31 from rfl,
    Nat.mod_eq_of_lt hv, Nat.shiftRight_eq_div_pow, Nat.shiftLeft_eq]
  have hv2 : v / 2 < 2 ^ 31 := by omega
  rw [pow_one, Nat.lor_comm, Nat.mul_comm, ← Nat.mul_add_lt_is_or hv2]
  omega

theorem rrx_result {v : Nat} (hv : v < 4294967296) (c : Bool) :
    (if c then ror32 v 1 ||| (1 <<< 31) else ror32 v 1 &&& not32 (1 <<< 31)) =
      v / 2 + (if c then 2147483648 else 0) := by
  rw [ror32_one hv]
  have hv2 : v / 2 < 2 ^ 31 := by omega
  have hsplit : v / 2 + v % 2 * 2147483648 = 2 ^ 31 * (v % 2) ||| v / 2 := by
    rw [← Nat.mul_add_lt_is_or hv2]
    ring_nf
  cases c
  · rw [if_neg (by simp), if_neg (by simp),
      show not32 (1 <<< 31) = 2 ^ 31 - 1 from rfl, hsplit,
      ← Nat.mul_add_lt_is_or hv2, Nat.and_pow_two_sub_one_eq_mod]
    omega
  · rw [if_pos rfl, if_pos rfl, show (1 <<< 31 : Nat) = 2 ^ 31 from rfl, hsplit]
    rcases Nat.mod_two_eq_zero_or_one v with h | h <;> rw [h]
    · rw [Nat.mul_zero, Nat.zero_or, Nat.lor_comm, ← Nat.mul_one (2 ^ 31),
        ← Nat.mul_add_lt_is_or hv2]
      omega
    · rw [Nat.mul_one, Nat.lor_comm (2 ^ 31) (v / 2), Nat.or_assoc, Nat.or_self,
        Nat.lor_comm (v / 2) (2 ^ 31), ← Nat.mul_one (2 ^ 31),
        ← Nat.mul_add_lt_is_or hv2]
      omega

/-- C4: for a data-processing second operand given as a register with an
encoded immediate shift amount of zero, operand resolution implements the
four ARM special cases: LSL#0 returns the register value with the carry
flag unaffected (no shifter carry-out); LSR#0 returns 0 with carry-out =
bit 31; ASR#0 returns 0xFFFFFFFF or 0 (the sign-extension of bit 31) with
carry-out = bit 31; ROR#0 returns the value rotated right by one with bit
31 replaced by the current Carry flag, and carry-out = bit 0. -/
theorem C4_zero_shift_operand_cases (s : Exec) (r : Nat)
    (hV : s.cpu.registers.read r < MOD32) :
    resolveOperand s (.ImmediateShiftedRegister r 0 .Lsl) =
      ((s.cpu.registers.read r, none), s) ∧
    resolveOperand s (.ImmediateShiftedRegister r 0 .Lsr) =
      ((0, some ((s.cpu.registers.read r).testBit 31)), s) ∧
    resolveOperand s (.ImmediateShiftedRegister r 0 .Asr) =
      ((if (s.cpu.registers.read r).testBit 31 then 4294967295 else 0,
        some ((s.cpu.registers.read r).testBit 31)), s) ∧
    resolveOperand s (.ImmediateShiftedRegister r 0 .Ror) =
      ((s.cpu.registers.read r / 2 +
          (if s.cpu.registers.carry then 2147483648 else 0),
        some ((s.cpu.registers.read r).testBit 0)), s) := by
  refine ⟨rfl, ?_, ?_, ?_⟩
  · rw [show resolveOperand s (.ImmediateShiftedRegister r 0 .Lsr) =
      ((0, some (s.cpu.registers.read r &&& (1 <<< 31) != 0)), s) from rfl,
      land_shift_ne_testBit]
  · rw [show resolveOperand s (.ImmediateShiftedRegister r 0 .Asr) =
      ((ofI32 (Int.fdiv (toI32 (s.cpu.registers.read r)) (2 ^ 31)),
        some (s.cpu.registers.read r &&& (1 <<< 31) != 0)), s) from rfl,
      land_shift_ne_testBit, asr31_cases hV]
  · rw [show resolveOperand s (.ImmediateShiftedRegister r 0 .Ror) =
      ((if s.cpu.registers.carry then ror32 (s.cpu.registers.read r) 1 ||| (1 <<< 31)
          else ror32 (s.cpu.registers.read r) 1 &&& not32 (1 <<< 31),
        some (s.cpu.registers.read r &&& 1 != 0)), s) from rfl,
      land_one_ne_testBit, rrx_result hV]

/-- Witness for C4 at a concrete state (System mode, r2 = 0x100). -/
theorem C4_zero_shift_operand_cases_witness :
    (execWithRegs stmRegs).cpu.registers.read 2 < MOD32 ∧
    (resolveOperand (execWithRegs stmRegs) (.ImmediateShiftedRegister 2 0 .Lsl) =
      (((execWithRegs stmRegs).cpu.registers.read 2, none), execWithRegs stmRegs) ∧
    resolveOperand (execWithRegs stmRegs) (.ImmediateShiftedRegister 2 0 .Lsr) =
      ((0, some (((execWithRegs stmRegs).cpu.registers.read 2).testBit 31)),
        execWithRegs stmRegs) ∧
    resolveOperand (execWithRegs stmRegs) (.ImmediateShiftedRegister 2 0 .Asr) =
      ((if ((execWithRegs stmRegs).cpu.registers.read 2).testBit 31 then 4294967295 else 0,
        some (((execWithRegs stmRegs).cpu.registers.read 2).testBit 31)),
        execWithRegs stmRegs) ∧
    resolveOperand (execWithRegs stmRegs) (.ImmediateShiftedRegister 2 0 .Ror) =
      (((execWithRegs stmRegs).cpu.registers.read 2 / 2 +
          (if (execWithRegs stmRegs).cpu.registers.carry then 2147483648 else 0),
        some (((execWithRegs stmRegs).cpu.registers.read 2).testBit 0)),
        execWithRegs stmRegs)) :=
  ⟨by decide, C4_zero_shift_operand_cases (execWithRegs stmRegs) 2 (by decide)⟩

theorem resolveOperand_cpsr (s : Exec) (op : DataProcessingOperand) :
    (resolveOperand s op).2.cpu.registers.cpsr = s.cpu.registers.cpsr := by
  cases op with
  | Immediate v => rfl
  | ShiftedImmediate a b => rfl
  | RegisterShiftedRegister a b t => exact RegisterFile.write_cpsr _ _ _
  | ImmediateShiftedRegister a b t =>
    by_cases h : b = 0
    · subst h
      cases t <;> rfl
    · simp only [resolveOperand, if_neg h]

theorem aluDispatch_cpsr (sub : DataProcessingOpcode) (s : Exec) (rd rn b : Nat) :
    (aluDispatch sub s rd rn b).2.cpu.registers.cpsr = s.cpu.registers.cpsr := by
  cases sub <;> first | rfl | exact RegisterFile.write_cpsr _ _ _

theorem cpsr_ite_incr (c : Prop) [Decidable c] (s : Exec) :
    (if c then s.setRegs (s.cpu.registers.getAndIncrPc 4).2 else s).cpu.registers.cpsr =
      s.cpu.registers.cpsr := by
  split <;> rfl

theorem updateFlag_mask_testBit (rf : RegisterFile) (b : Bool) (m k j : Nat)
    (hm : m = 1 <<< k) (hj : j < 32) :
    ((rf.updateFlag m b).cpsr).testBit j = if j = k then b else rf.cpsr.testBit j := by
  subst hm
  exact RegisterFile.updateFlag_testBit rf k j b hj

theorem uf_bit30 (rf : RegisterFile) (b : Bool) (j : Nat) (hj : j < 32) :
    ((rf.updateFlag 1073741824 b).cpsr).testBit j =
      if j = 30 then b else rf.cpsr.testBit j :=
  updateFlag_mask_testBit rf b _ 30 j (by decide) hj

theorem uf_bit31 (rf : RegisterFile) (b : Bool) (j : Nat) (hj : j < 32) :
    ((rf.updateFlag 2147483648 b).cpsr).testBit j =
      if j = 31 then b else rf.cpsr.testBit j :=
  updateFlag_mask_testBit rf b _ 31 j (by decide) hj

theorem uf_bit29 (rf : RegisterFile) (b : Bool) (j : Nat) (hj : j < 32) :
    ((rf.updateFlag 536870912 b).cpsr).testBit j =
      if j = 29 then b else rf.cpsr.testBit j :=
  updateFlag_mask_testBit rf b _ 29 j (by decide) hj

theorem uf_bit28 (rf : RegisterFile) (b : Bool) (j : Nat) (hj : j < 32) :
    ((rf.updateFlag 268435456 b).cpsr).testBit j =
      if j = 28 then b else rf.cpsr.testBit j :=
  updateFlag_mask_testBit rf b _ 28 j (by decide) hj

theorem applyDpFlags_bits (sub : DataProcessingOpcode) (sc : Option Bool)
    (result : Nat) (cOut vOut : Bool) (rf : RegisterFile) :
    ((applyDpFlags sub sc result cOut vOut rf).cpsr.testBit 30 = (result == 0)) ∧
    ((applyDpFlags sub sc result cOut vOut rf).cpsr.testBit 31 =
      decide (toI32 result < 0)) ∧
    (isLogicalOp sub = true →
      (applyDpFlags sub sc result cOut vOut rf).cpsr.testBit 28 = rf.cpsr.testBit 28 ∧
      (sc = none → (applyDpFlags sub sc result cOut vOut rf).cpsr.testBit 29 =
        rf.cpsr.testBit 29) ∧
      (∀ cb, sc = some cb →
        (applyDpFlags sub sc result cOut vOut rf).cpsr.testBit 29 = cb)) ∧
    (isLogicalOp sub = false →
      (applyDpFlags sub sc result cOut vOut rf).cpsr.testBit 29 = cOut ∧
      (applyDpFlags sub sc result cOut vOut rf).cpsr.testBit 28 = vOut) := by
  simp only [applyDpFlags, FLAG_ZERO, FLAG_SIGN, FLAG_CARRY, FLAG_OVERFLOW]
  rcases hL : isLogicalOp sub
  · simp only [hL, Bool.false_eq_true, if_false]
    refine ⟨?_, ?_, ?_, ?_⟩
    · simp [uf_bit28, uf_bit29, uf_bit30, uf_bit31]
    · simp [uf_bit28, uf_bit29, uf_bit30, uf_bit31]
    · intro h
      exact h.elim
    · intro h
      constructor
      · simp [uf_bit28, uf_bit29, uf_bit30, uf_bit31]
      · simp [uf_bit28, uf_bit29, uf_bit30, uf_bit31]
  · simp only [hL, if_true]
    rcases sc with _ | cb
    · refine ⟨?_, ?_, ?_, ?_⟩
      · simp [uf_bit28, uf_bit29, uf_bit30, uf_bit31]
      · simp [uf_bit28, uf_bit29, uf_bit30, uf_bit31]
      · intro h
        refine ⟨?_, ?_, ?_⟩
        · simp [uf_bit28, uf_bit29, uf_bit30, uf_bit31]
        · intro h2
          simp [uf_bit28, uf_bit29, uf_bit30, uf_bit31]
        · intro cb hcb
          exact absurd hcb (by simp)
      · intro h
        exact absurd h (by simp)
    · refine ⟨?_, ?_, ?_, ?_⟩
      · simp [uf_bit28, uf_bit29, uf_bit30, uf_bit31]
      · simp [uf_bit28, uf_bit29, uf_bit30, uf_bit31]
      · intro h
        refine ⟨?_, ?_, ?_⟩
        · simp [uf_bit28, uf_bit29, uf_bit30, uf_bit31]
        · intro h2
          exact absurd h2 (by simp)
        · intro cb' hcb
          obtain rfl : cb = cb' := by injection hcb
          simp [uf_bit28, uf_bit29, uf_bit30, uf_bit31]
      · intro h
        exact absurd h (by simp)

/-- C5: for an executed data-processing instruction with set-flags
requested (and a destination other than PC, where the status word is not
subsequently replaced from the SPSR), the final status word has: Zero =
(result = 0) and Sign = sign bit of the result, always; for the logical
sub-opcodes (AND, EOR, TST, TEQ, ORR, MOV, BIC, MVN) the Overflow flag is
unchanged and the Carry flag is taken from the operand shifter's carry-out
when one exists (a shift occurred) and is unchanged otherwise; for the
arithmetic sub-opcodes (ADD, ADC, SUB, SBC, RSB, RSC, CMP, CMN) the Carry
and Overflow flags are the ALU's carry and overflow outputs. -/
theorem C5_dp_flag_routing (spec : BusSpec) (s : Exec) (sub : DataProcessingOpcode)
    (rd rn : Nat) (operand : DataProcessingOperand) (b : Nat) (sc : Option Bool)
    (result : Nat) (cOut vOut : Bool) (s1 s2 : Exec)
    (hrd : rd ≠ PC_IDX)
    (hres : resolveOperand (s.setNextAccess (ACCESS_CODE ||| ACCESS_SEQ)) operand =
      ((b, sc), s1))
    (halu : aluDispatch sub s1 rd rn b = ((result, cOut, vOut), s2)) :
    ((executeDataProcessing spec s sub rd rn operand true).cpu.registers.cpsr.testBit 30 =
      (result == 0)) ∧
    ((executeDataProcessing spec s sub rd rn operand true).cpu.registers.cpsr.testBit 31 =
      decide (toI32 result < 0)) ∧
    (isLogicalOp sub = true →
      (executeDataProcessing spec s sub rd rn operand true).cpu.registers.cpsr.testBit 28 =
        s.cpu.registers.cpsr.testBit 28 ∧
      (sc = none →
        (executeDataProcessing spec s sub rd rn operand true).cpu.registers.cpsr.testBit 29 =
          s.cpu.registers.cpsr.testBit 29) ∧
      (∀ cb, sc = some cb →
        (executeDataProcessing spec s sub rd rn operand true).cpu.registers.cpsr.testBit 29 =
          cb)) ∧
    (isLogicalOp sub = false →
      (executeDataProcessing spec s sub rd rn operand true).cpu.registers.cpsr.testBit 29 =
        cOut ∧
      (executeDataProcessing spec s sub rd rn operand true).cpu.registers.cpsr.testBit 28 =
        vOut) := by
  have hc1 : s1.cpu.registers.cpsr = s.cpu.registers.cpsr := by
    have h1 := resolveOperand_cpsr (s.setNextAccess (ACCESS_CODE ||| ACCESS_SEQ)) operand
    rw [hres] at h1
    exact h1
  have hc2 : s2.cpu.registers.cpsr = s.cpu.registers.cpsr := by
    have h2 := aluDispatch_cpsr sub s1 rd rn b
    rw [halu] at h2
    exact h2.trans hc1
  have key : (executeDataProcessing spec s sub rd rn operand true).cpu.registers.cpsr =
      (applyDpFlags sub sc result cOut vOut s2.cpu.registers).cpsr := by
    simp only [executeDataProcessing]
    rw [hres]
    simp only []
    rw [halu]
    simp only []
    simp only [if_true]
    rw [if_neg hrd, cpsr_ite_incr]
    rfl
  obtain ⟨h30, h31, hLog, hAr⟩ := applyDpFlags_bits sub sc result cOut vOut s2.cpu.registers
  rw [hc2] at hLog
  rw [key]
  exact ⟨h30, h31, hLog, hAr⟩

/-- Witness for C5: a concrete MOV r0, #5 with set-flags from the
reset-like state (no shift occurred, so the carry and overflow flags are
untouched and Zero/Sign follow the result 5). -/
theorem C5_dp_flag_routing_witness :
    ((0 : Nat) ≠ PC_IDX) ∧
    (resolveOperand ((execWith 19 0).setNextAccess (ACCESS_CODE ||| ACCESS_SEQ))
        (.Immediate 5) =
      ((5, none), (execWith 19 0).setNextAccess (ACCESS_CODE ||| ACCESS_SEQ))) ∧
    (((executeDataProcessing zeroBus (execWith 19 0) .MOV 0 1 (.Immediate 5)
        true).cpu.registers.cpsr.testBit 30 = ((5 : Nat) == 0)) ∧
    ((executeDataProcessing zeroBus (execWith 19 0) .MOV 0 1 (.Immediate 5)
        true).cpu.registers.cpsr.testBit 31 = decide (toI32 5 < 0)) ∧
    (isLogicalOp .MOV = true →
      (executeDataProcessing zeroBus (execWith 19 0) .MOV 0 1 (.Immediate 5)
          true).cpu.registers.cpsr.testBit 28 =
        (execWith 19 0).cpu.registers.cpsr.testBit 28 ∧
      ((none : Option Bool) = none →
        (executeDataProcessing zeroBus (execWith 19 0) .MOV 0 1 (.Immediate 5)
            true).cpu.registers.cpsr.testBit 29 =
          (execWith 19 0).cpu.registers.cpsr.testBit 29) ∧
      (∀ cb, (none : Option Bool) = some cb →
        (executeDataProcessing zeroBus (execWith 19 0) .MOV 0 1 (.Immediate 5)
            true).cpu.registers.cpsr.testBit 29 = cb)) ∧
    (isLogicalOp .MOV = false →
      (executeDataProcessing zeroBus (execWith 19 0) .MOV 0 1 (.Immediate 5)
          true).cpu.registers.cpsr.testBit 29 = false ∧
      (executeDataProcessing zeroBus (execWith 19 0) .MOV 0 1 (.Immediate 5)
          true).cpu.registers.cpsr.testBit 28 = false)) :=
  ⟨by decide, rfl,
    C5_dp_flag_routing zeroBus (execWith 19 0) .MOV 0 1 (.Immediate 5) 5 none 5 false false
      _ _ (by decide) rfl rfl⟩
